import Mathlib

/-!
# Verification of the alarmdotcom device synchronization and reconciliation engine

Shallow embedding of `custom_components/alarmdotcom`: the config migrator
(`__init__.py::async_migrate_entry`), the device normalizer
(`controller.py::IntController.async_update`), the registry reconciler
(`__init__.py::async_setup_entry`, `util.py`), the update-failure
classification (`controller.py` / `alarmhub.py::async_update`), the
contact-sensor classifier (`binary_sensor.py`), the commandable-device
display-state functions (`alarm_control_panel.py::state_fn`,
`lock.py::is_locking_fn` / `is_unlocking_fn`) and the arm-code gate
(`lock.py` / `alarm_control_panel.py::_validate_code`).
-/

namespace Alarmdotcom

/-! ## Python scalar values

The config option bag (`ConfigEntry.options`) is a Python `dict[str, Any]`.
The migration code stores `None`, booleans, ints, strings and lists of
strings in it and reads values back with `.get` (which returns `None` for a
missing key, so the code never distinguishes a missing key from a stored
`None`; `PyVal.none` models both). -/
inductive PyVal where
  | none
  | bool (b : Bool)
  | int (n : Int)
  | str (s : String)
  | strList (xs : List String)
deriving DecidableEq, Repr

/-- Python truthiness (`bool(v)`) for the values that appear in the option bag. -/
def PyVal.truthy : PyVal → Bool
  | .none => false
  | .bool b => b
  | .int n => n != 0
  | .str s => s ≠ ""
  | .strList xs => xs ≠ []

/-- Python `str(v)` for the values that appear under the `arm_code` key. -/
def PyVal.pyStr : PyVal → String
  | .none => "None"
  | .bool b => if b then "True" else "False"
  | .int n => toString n
  | .str s => s
  | .strList _ => "[...]"

/-! ## Config Migrator (`__init__.py::async_migrate_entry`) -/

/-- The `ConfigState`: the versioned option bag of a config entry.  The named
fields are the keys touched by `async_migrate_entry` (`arm_code`,
`use_arm_code`, `force_bypass`, `silent_arming`, `no_entry_delay`,
`arm_home_options`, `arm_away_options`, `arm_night_options`); `rest` holds
every other key, copied verbatim by the `{**config_entry.options}` spreads. -/
structure ConfigState where
  version : Nat
  arm_code : PyVal
  use_arm_code : PyVal
  force_bypass : PyVal
  silent_arming : PyVal
  no_entry_delay : PyVal
  arm_home : PyVal
  arm_away : PyVal
  arm_night : PyVal
  rest : List (String × PyVal)
deriving DecidableEq, Repr

/-- Version 1 → 2 step of `async_migrate_entry` (`__init__.py` lines 138-158):
`use_arm_code = bool(options.get("arm_code"))`;
`arm_code = str(arm_code) if (arm_code := options.get("arm_code")) else ""`;
`version = 2`. -/
def migrateV1 (s : ConfigState) : ConfigState :=
  if s.version = 1 then
    { s with
      use_arm_code := .bool s.arm_code.truthy
      arm_code := if s.arm_code.truthy then .str s.arm_code.pyStr else .str ""
      version := 2 }
  else s

/-- Version 2 → 3 step of `async_migrate_entry` (`__init__.py` lines 160-222):
null out `arm_code` unless `use_arm_code` is truthy; populate the three
arm-mode option lists from the legacy `force_bypass` / `silent_arming` /
`no_entry_delay` enums; set `version = 3`; purge (null out) truthy deprecated
keys. -/
def migrateV2 (s : ConfigState) : ConfigState :=
  if s.version = 2 then
    let armCode := if ¬ s.use_arm_code.truthy then PyVal.none else s.arm_code
    let fb := s.force_bypass
    let sa := s.silent_arming
    let nd := s.no_entry_delay
    let newArmHome : List String :=
      (if fb = .str "Stay Only" ∨ fb = .str "Always" then ["bypass"] else []) ++
      (if sa = .str "Stay Only" ∨ sa = .str "Always" then ["silent"] else []) ++
      (if ¬ (nd = .str "Stay Only" ∨ nd = .str "Always") then ["delay"] else [])
    let newArmAway : List String :=
      (if fb = .str "Away Only" ∨ fb = .str "Always" then ["bypass"] else []) ++
      (if sa = .str "Away Only" ∨ sa = .str "Always" then ["silent"] else []) ++
      (if ¬ (nd = .str "Away Only" ∨ nd = .str "Always") then ["delay"] else [])
    let newArmNight : List String :=
      (if fb = .str "Always" then ["bypass"] else []) ++
      (if sa = .str "Always" then ["silent"] else []) ++
      (if ¬ (nd = .str "Always") then ["delay"] else [])
    { s with
      arm_code := armCode
      arm_home := .strList newArmHome
      arm_away := .strList newArmAway
      arm_night := .strList newArmNight
      version := 3
      use_arm_code := if s.use_arm_code.truthy then PyVal.none else s.use_arm_code
      force_bypass := if fb.truthy then PyVal.none else fb
      silent_arming := if sa.truthy then PyVal.none else sa
      no_entry_delay := if nd.truthy then PyVal.none else nd }
  else s

/-- The `async_migrate_entry` runs the two version-gated steps in order within a
single call, so a version-1 entry walks both steps. -/
def migrate (s : ConfigState) : ConfigState :=
  migrateV2 (migrateV1 s)

/-- The config-flow schema version (`config_flow.py` line 31: `VERSION = 3`). -/
def LATEST_CONFIG_VERSION : Nat := 3

/-- C2: migration never decreases the version and is idempotent. -/
theorem migrate_monotone_idempotent (s : ConfigState) :
    s.version ≤ (migrate s).version ∧ migrate (migrate s) = migrate s := by
  constructor
  · by_cases h1 : s.version = 1
    · simp [migrate, migrateV1, migrateV2, h1]
    · by_cases h2 : s.version = 2
      · simp [migrate, migrateV1, migrateV2, h1, h2]
      · simp [migrate, migrateV1, migrateV2, h1, h2]
  · by_cases h1 : s.version = 1
    · simp [migrate, migrateV1, migrateV2, h1]
    · by_cases h2 : s.version = 2
      · simp [migrate, migrateV1, migrateV2, h1, h2]
      · simp [migrate, migrateV1, migrateV2, h1, h2]

/-- The version-1 config of the C3 scenario: `options = {"arm_code": 1234}`,
all other migration-relevant keys absent. -/
def exampleV1Config : ConfigState :=
  { version := 1
    arm_code := .int 1234
    use_arm_code := .none
    force_bypass := .none
    silent_arming := .none
    no_entry_delay := .none
    arm_home := .none
    arm_away := .none
    arm_night := .none
    rest := [] }

/-- C3 counterexample: migrating the version-1 config with `arm_code=1234`
does NOT leave the arm-home option list empty — `no_entry_delay` is unset, so
`None not in ["Stay Only", "Always"]` holds and the step appends `"delay"`. -/
theorem migrate_v1_arm_home_not_empty :
    (migrate exampleV1Config).arm_home ≠ PyVal.strList [] ∧
      (migrate exampleV1Config).arm_home = PyVal.strList ["delay"] := by
  constructor <;> decide

/-- C3 (amended): migrating the version-1 config with `arm_code=1234` yields
`arm_code = "1234"`, arm-mode option lists equal to `["delay"]` for home,
away and night, and version 3 (the latest schema version). -/
theorem migrate_v1_scenario :
    (migrate exampleV1Config).arm_code = PyVal.str "1234" ∧
      (migrate exampleV1Config).arm_home = PyVal.strList ["delay"] ∧
      (migrate exampleV1Config).arm_away = PyVal.strList ["delay"] ∧
      (migrate exampleV1Config).arm_night = PyVal.strList ["delay"] ∧
      (migrate exampleV1Config).version = LATEST_CONFIG_VERSION := by
  refine ⟨?_, ?_, ?_, ?_, ?_⟩ <;> decide

/-! ## Arm-code gate (`lock.py` / `alarm_control_panel.py::_validate_code`) -/

/-- The `_validate_code` (identical in `AdcLockEntity` and
`AdcAlarmControlPanelEntity`): the configured `arm_code` option is `str | None`
and the caller-supplied service code is `str | None`; the code is accepted
when `arm_code in [None, ""] or code == arm_code`, otherwise a warning is
logged and `False` is returned. -/
def validate_code (armCode code : Option String) : Bool :=
  armCode = none || armCode = some "" || code = armCode

/-- The `AdcLockEntity.async_lock` / `async_unlock` and the four
`AdcAlarmControlPanelEntity.async_alarm_*` methods dispatch their command to
the controller exactly when `_validate_code` accepts the code given by the caller. -/
def command_dispatched (armCode code : Option String) : Bool :=
  validate_code armCode code

/-- C10: with a non-empty arm code configured, a non-matching caller code
never dispatches; with no (or an empty) arm code configured, any caller code
dispatches. -/
theorem command_dispatched_iff_code_ok (armCode code : Option String)
    (hne : armCode ≠ none ∧ armCode ≠ some "") :
    (code ≠ armCode → command_dispatched armCode code = false) ∧
      (∀ c : Option String, command_dispatched none c = true ∧
        command_dispatched (some "") c = true) := by
  obtain ⟨h1, h2⟩ := hne
  refine ⟨fun hc => ?_, fun c => by simp [command_dispatched, validate_code]⟩
  simp only [command_dispatched, validate_code, Bool.or_eq_false_iff,
    decide_eq_false_iff_not]
  exact ⟨⟨h1, h2⟩, hc⟩

/-- Witness for `command_dispatched_iff_code_ok` at `armCode = some "9999"`,
`code = some "1234"`. -/
theorem command_dispatched_iff_code_ok_witness :
    ((some "9999" : Option String) ≠ none ∧ (some "9999" : Option String) ≠ some "") ∧
      ((some "1234" : Option String) ≠ some "9999" →
        command_dispatched (some "9999") (some "1234") = false) ∧
      (∀ c : Option String, command_dispatched none c = true ∧
        command_dispatched (some "") c = true) := by
  refine ⟨by decide, ?_⟩
  exact command_dispatched_iff_code_ok (some "9999") (some "1234") (by decide)

/-! ## Commandable-device display state

`alarm_control_panel.py::state_fn` and `lock.py::is_locking_fn` /
`is_unlocking_fn`.  The partition / lock state enums come from the external
`pyalarmdotcomajax` client; the variants used by this code are listed in
`const.py` (`ADCIPartitionState`, `ADCILockState`). -/

/-- The `pyadc.partition.PartitionState` variants used by `state_fn`
(plus `UNKNOWN`, see `const.py::ADCIPartitionState`). -/
inductive PartitionState where
  | UNKNOWN
  | DISARMED
  | ARMED_STAY
  | ARMED_AWAY
  | ARMED_NIGHT
deriving DecidableEq, Repr

/-- Home Assistant `AlarmControlPanelState` values produced by `state_fn`. -/
inductive AlarmControlPanelState where
  | DISARMED
  | ARMED_HOME
  | ARMED_AWAY
  | ARMED_NIGHT
  | ARMING
  | DISARMING
deriving DecidableEq, Repr

/-- The partition resource attributes read by `state_fn`. -/
structure PartitionAttributes where
  is_malfunctioning : Bool
  state : Option PartitionState
  desired_state : Option PartitionState
deriving DecidableEq, Repr

/-- The `state_mapping` of `state_fn` (`alarm_control_panel.py` lines 115-120),
with `dict.get` returning `None` for unmapped states. -/
def state_mapping : Option PartitionState → Option AlarmControlPanelState
  | some .DISARMED => some .DISARMED
  | some .ARMED_STAY => some .ARMED_HOME
  | some .ARMED_AWAY => some .ARMED_AWAY
  | some .ARMED_NIGHT => some .ARMED_NIGHT
  | _ => none

/-- The `desired_state_mapping` of `state_fn` (`alarm_control_panel.py` lines
125-130). -/
def desired_state_mapping : Option PartitionState → Option AlarmControlPanelState
  | some .DISARMED => some .DISARMING
  | some .ARMED_STAY => some .ARMING
  | some .ARMED_AWAY => some .ARMING
  | some .ARMED_NIGHT => some .ARMING
  | _ => none

/-- The `state_fn` (`alarm_control_panel.py` lines 105-136): `None` when
malfunctioning; the direct `state_mapping` when `state == desired_state`;
otherwise the `desired_state_mapping` of the (truthy, i.e. non-`None`)
desired state. -/
def state_fn (p : PartitionAttributes) : Option AlarmControlPanelState :=
  if p.is_malfunctioning then
    none
  else if p.state = p.desired_state then
    state_mapping p.state
  else if p.desired_state.isSome then
    desired_state_mapping p.desired_state
  else
    none

/-- The `pyadc.lock.LockState` variants (see `const.py::ADCILockState`). -/
inductive LockState where
  | FAILED
  | LOCKED
  | UNLOCKED
deriving DecidableEq, Repr

/-- The lock resource attributes read by `is_locking_fn` / `is_unlocking_fn`. -/
structure LockAttributes where
  state : Option LockState
  desired_state : Option LockState
deriving DecidableEq, Repr

/-- The `is_locking_fn` (`lock.py` lines 66-74): the lock is "locking" when its
state is not `LOCKED` but its desired state is `LOCKED`. -/
def is_locking_fn (l : LockAttributes) : Bool :=
  l.state ≠ some LockState.LOCKED && l.desired_state = some LockState.LOCKED

/-- The `is_unlocking_fn` (`lock.py` lines 77-85). -/
def is_unlocking_fn (l : LockAttributes) : Bool :=
  l.state ≠ some LockState.UNLOCKED && l.desired_state = some LockState.UNLOCKED

/-- C9 counterexample: a malfunctioning partition with `state = DISARMED` and
`desired_state = ARMED_AWAY` (state ≠ desired_state) displays `None`, not the
transitional `ARMING` state determined by the desired state. -/
theorem state_fn_malfunction_counterexample :
    state_fn { is_malfunctioning := true, state := some .DISARMED,
               desired_state := some .ARMED_AWAY } = none ∧
      desired_state_mapping (some .ARMED_AWAY) = some .ARMING := by
  constructor <;> rfl

/-- C9 (amended): for every non-malfunctioning partition, state ≠
desired_state displays the transitional state determined by the desired state
(`desired_state_mapping`, `None` when no desired state is set) and state =
desired_state displays the direct mapping of the state; for every lock,
"locking" holds exactly when desired is `LOCKED` and state is not, and
"unlocking" exactly when desired is `UNLOCKED` and state is not. -/
theorem display_state_transitions (p : PartitionAttributes) (l : LockAttributes)
    (hm : p.is_malfunctioning = false) :
    (p.state ≠ p.desired_state →
      state_fn p = if p.desired_state.isSome
        then desired_state_mapping p.desired_state else none) ∧
    (p.state = p.desired_state → state_fn p = state_mapping p.state) ∧
    (is_locking_fn l = true ↔
      l.desired_state = some .LOCKED ∧ l.state ≠ some .LOCKED) ∧
    (is_unlocking_fn l = true ↔
      l.desired_state = some .UNLOCKED ∧ l.state ≠ some .UNLOCKED) := by
  refine ⟨fun hne => ?_, fun heq => ?_, ?_, ?_⟩
  · simp [state_fn, hm, hne]
  · simp [state_fn, hm, heq]
  · simp [is_locking_fn, and_comm]
  · simp [is_unlocking_fn, and_comm]

/-- Witness for `display_state_transitions`: a healthy partition disarming
(state `ARMED_AWAY`, desired `DISARMED`) and a lock locking (state
`UNLOCKED`, desired `LOCKED`). -/
theorem display_state_transitions_witness :
    ((false : Bool) = false) ∧
      (state_fn { is_malfunctioning := false, state := some .ARMED_AWAY,
                  desired_state := some .DISARMED } =
        some AlarmControlPanelState.DISARMING) ∧
      (is_locking_fn { state := some .UNLOCKED, desired_state := some .LOCKED }
        = true) := by
  have h := display_state_transitions
    { is_malfunctioning := false, state := some .ARMED_AWAY,
      desired_state := some .DISARMED }
    { state := some .UNLOCKED, desired_state := some .LOCKED } rfl
  refine ⟨rfl, ?_, ?_⟩
  · have := h.1 (by decide)
    simpa using this
  · exact h.2.2.1.mpr (by decide)

/-! ## Contact-sensor door/window classification
(`binary_sensor.py::BinarySensor._determine_device_class`)

The keyword lists `LANG_DOOR` / `LANG_WINDOW` live in
`device_type_langs.py`, which is not part of the sources here, and matching
uses `re.search(word, name, re.IGNORECASE)`; both are passed in as
parameters (`doorWords` / `windowWords` and `search word name`). -/

/-- The `pyalarmdotcomajax.devices.sensor.Sensor.Subtype` variants referenced by
`_determine_device_class` (the external library has further variants; `OTHER`
stands for all of them). -/
inductive SensorSubtype where
  | CONTACT_SENSOR
  | CONTACT_SHOCK_SENSOR
  | SMOKE_DETECTOR
  | CO_DETECTOR
  | PANIC_BUTTON
  | GLASS_BREAK_DETECTOR
  | PANEL_GLASS_BREAK_DETECTOR
  | MOTION_SENSOR
  | PANEL_MOTION_SENSOR
  | FREEZE_SENSOR
  | MOBILE_PHONE
  | OTHER
deriving DecidableEq, Repr

/-- Home Assistant `BinarySensorDeviceClass` values produced by
`_determine_device_class`. -/
inductive BinarySensorDeviceClass where
  | DOOR
  | WINDOW
  | MOISTURE
  | SMOKE
  | CO
  | SAFETY
  | VIBRATION
  | MOTION
  | COLD
deriving DecidableEq, Repr

/-- The device attributes read by `_determine_device_class`: display name,
subtype, and whether the device is a `libWaterSensor` instance. -/
structure ClassifiedSensorInput where
  name : String
  device_subtype : Option SensorSubtype
  is_water_sensor : Bool
deriving DecidableEq, Repr

/-- One keyword-list scan of `_determine_device_class`: each matching word
overwrites `derived_class` with `cls`, a non-match leaves it unchanged. -/
def scanKeywords (search : String → String → Bool) (name : String)
    (cls : BinarySensorDeviceClass) (words : List String)
    (init : Option BinarySensorDeviceClass) : Option BinarySensorDeviceClass :=
  words.foldl (fun acc w => if search w name then some cls else acc) init

/-- The `_determine_device_class` (`binary_sensor.py` lines 152-216): for contact
(or contact-shock) sensors, scan the name against the door keywords and then
the window keywords (a later match overwrites); return the derived class if
any keyword matched, else fall through to water-sensor and per-subtype
classification, returning `None` for anything unmatched. -/
def determine_device_class (search : String → String → Bool)
    (doorWords windowWords : List String) (dev : ClassifiedSensorInput) :
    Option BinarySensorDeviceClass :=
  let isContact := dev.device_subtype = some .CONTACT_SENSOR ∨
    dev.device_subtype = some .CONTACT_SHOCK_SENSOR
  let derived : Option BinarySensorDeviceClass :=
    if isContact then
      scanKeywords search dev.name .WINDOW windowWords
        (scanKeywords search dev.name .DOOR doorWords none)
    else none
  if derived ≠ none ∧ isContact then derived
  else if dev.is_water_sensor then some .MOISTURE
  else
    match dev.device_subtype with
    | some .SMOKE_DETECTOR => some .SMOKE
    | some .CO_DETECTOR => some .CO
    | some .PANIC_BUTTON => some .SAFETY
    | some .GLASS_BREAK_DETECTOR => some .VIBRATION
    | some .PANEL_GLASS_BREAK_DETECTOR => some .VIBRATION
    | some .MOTION_SENSOR => some .MOTION
    | some .PANEL_MOTION_SENSOR => some .MOTION
    | some .FREEZE_SENSOR => some .COLD
    | _ => none

theorem scanKeywords_eq (search : String → String → Bool) (name : String)
    (cls : BinarySensorDeviceClass) (words : List String)
    (init : Option BinarySensorDeviceClass) :
    scanKeywords search name cls words init =
      if words.any (fun w => search w name) then some cls else init := by
  induction words generalizing init with
  | nil => simp [scanKeywords]
  | cons w ws ih =>
    simp only [scanKeywords, List.foldl_cons, List.any_cons]
    rw [show (ws.foldl (fun acc w => if search w name then some cls else acc)
      (if search w name then some cls else init)) =
      scanKeywords search name cls ws
        (if search w name then some cls else init) from rfl, ih]
    by_cases hw : search w name <;> by_cases hws : ws.any (fun w => search w name) <;>
      simp [hw, hws]

/-- C6: for a contact (or contact-shock) sensor that is not a water sensor,
any window-keyword match yields `WINDOW` (overriding door matches), a
door-keyword match with no window match yields `DOOR`, and no match in either
list leaves the class generic (`None`). -/
theorem contact_sensor_classification (search : String → String → Bool)
    (doorWords windowWords : List String) (dev : ClassifiedSensorInput)
    (hsub : dev.device_subtype = some .CONTACT_SENSOR ∨
      dev.device_subtype = some .CONTACT_SHOCK_SENSOR)
    (hwater : dev.is_water_sensor = false) :
    ((∃ w ∈ windowWords, search w dev.name = true) →
      determine_device_class search doorWords windowWords dev = some .WINDOW) ∧
    ((∀ w ∈ windowWords, search w dev.name = false) →
      (∃ w ∈ doorWords, search w dev.name = true) →
      determine_device_class search doorWords windowWords dev = some .DOOR) ∧
    ((∀ w ∈ windowWords, search w dev.name = false) →
      (∀ w ∈ doorWords, search w dev.name = false) →
      determine_device_class search doorWords windowWords dev = none) := by
  have hany : ∀ (ws : List String),
      (∃ w ∈ ws, search w dev.name = true) → ws.any (fun w => search w dev.name) = true := by
    intro ws ⟨w, hw, hs⟩
    exact List.any_eq_true.mpr ⟨w, hw, hs⟩
  have hnone : ∀ (ws : List String),
      (∀ w ∈ ws, search w dev.name = false) → ws.any (fun w => search w dev.name) = false := by
    intro ws h
    simp only [List.any_eq_false]
    intro w hw
    simp [h w hw]
  refine ⟨fun hwin => ?_, fun hnw hdoor => ?_, fun hnw hnd => ?_⟩
  · simp only [determine_device_class, scanKeywords_eq, hany _ hwin, if_true]
    simp [hsub]
  · simp only [determine_device_class, scanKeywords_eq, hnone _ hnw, hany _ hdoor]
    simp [hsub]
  · simp only [determine_device_class, scanKeywords_eq, hnone _ hnw, hnone _ hnd]
    rcases hsub with h | h <;> simp [h, hwater]

/-- Witness for `contact_sensor_classification`: a contact sensor named
"Front Door" with keyword lists `["door"]` / `["window"]` and a literal
word-equality matcher classifies as `DOOR`. -/
theorem contact_sensor_classification_witness :
    ((some SensorSubtype.CONTACT_SENSOR = some SensorSubtype.CONTACT_SENSOR ∨
      (some SensorSubtype.CONTACT_SENSOR : Option SensorSubtype) =
        some SensorSubtype.CONTACT_SHOCK_SENSOR) ∧ (false = false)) ∧
    determine_device_class (fun w _ => w == "door") ["door"] ["window"]
      { name := "Front Door", device_subtype := some .CONTACT_SENSOR,
        is_water_sensor := false } = some .DOOR := by
  refine ⟨⟨Or.inl rfl, rfl⟩, ?_⟩
  have h := contact_sensor_classification (fun w _ => w == "door")
    ["door"] ["window"]
    { name := "Front Door", device_subtype := some .CONTACT_SENSOR,
      is_water_sensor := false } (Or.inl rfl) rfl
  exact h.2.1 (by decide) ⟨"door", by decide⟩

/-! ## Update Coordinator single-flight model

`controller.py::async_coordinator_update` delegates refreshes to Home
Assistant framework class `DataUpdateCoordinator` (`async_refresh` /
`async_request_refresh`), whose implementation is host-framework code outside
these sources. -/

/-- Modelled from the spec: the refresh lifecycle state of the Update
Coordinator (`DataUpdateCoordinator`, not part of the sources here).
`inFlight` counts currently-running `fetch_state` calls, `fetchCalls` the
total number of underlying fetches ever started. -/
structure CoordinatorState where
  inFlight : Nat
  fetchCalls : Nat
deriving DecidableEq, Repr

/-- Events hitting the coordinator: a refresh request (from the interval
timer, a critical post-command refresh, or a push event) and completion of
the in-flight fetch. -/
inductive CoordEvent where
  | requestRefresh
  | fetchComplete
deriving DecidableEq, Repr

/-- Modelled from the spec: a refresh request starts an underlying fetch only
when none is in flight; a concurrent request is coalesced into a no-op that
completes with the in-flight fetch (never queued, never duplicated). -/
def coordStep (s : CoordinatorState) : CoordEvent → CoordinatorState
  | .requestRefresh =>
      if s.inFlight = 0 then
        { inFlight := 1, fetchCalls := s.fetchCalls + 1 }
      else s
  | .fetchComplete => { s with inFlight := s.inFlight - 1 }

/-- Run the coordinator over a sequence of events. -/
def coordRun (s : CoordinatorState) (evs : List CoordEvent) : CoordinatorState :=
  evs.foldl coordStep s

/-- The coordinator before any refresh. -/
def coordInit : CoordinatorState := { inFlight := 0, fetchCalls := 0 }

/-- C8: at most one fetch is ever in flight, and issuing two concurrent
refresh requests while a fetch is in flight (three requests before the first
completion) results in exactly one underlying `fetch_state` call. -/
theorem coordinator_single_flight :
    (∀ evs : List CoordEvent, (coordRun coordInit evs).inFlight ≤ 1) ∧
      coordRun coordInit
        [.requestRefresh, .requestRefresh, .requestRefresh, .fetchComplete] =
        { inFlight := 0, fetchCalls := 1 } := by
  constructor
  · have key : ∀ (evs : List CoordEvent) (s : CoordinatorState),
        s.inFlight ≤ 1 → (coordRun s evs).inFlight ≤ 1 := by
      intro evs
      induction evs with
      | nil => intro s hs; exact hs
      | cons e es ih =>
        intro s hs
        refine ih (coordStep s e) ?_
        cases e with
        | requestRefresh =>
          by_cases h : s.inFlight = 0 <;> simp [coordStep, h, hs]
        | fetchComplete => simp [coordStep]; omega
    exact fun evs => key evs coordInit (by simp [coordInit])
  · rfl

/-! ## Registry Reconciler (`__init__.py::async_setup_entry` lines 89-112)

For each identifier previously registered for this config entry, the setup
code keeps the device if the identifier itself — or the identifier with one
of the synthetic child suffixes `_low_battery` / `_malfunction` / `_debug`
APPENDED — is among the current device ids, and removes it otherwise. -/

/-- The keep test of the orphan-removal loop: `identifier[1] in
current_device_ids or f"{identifier[1]}_low_battery" in current_device_ids or
f"{identifier[1]}_malfunction" in current_device_ids or
f"{identifier[1]}_debug" in current_device_ids`. -/
def keep_device (currentIds : List String) (regId : String) : Bool :=
  currentIds.contains regId ||
    currentIds.contains (regId ++ "_low_battery") ||
    currentIds.contains (regId ++ "_malfunction") ||
    currentIds.contains (regId ++ "_debug")

/-- The removal set emitted by the reconciliation loop: every registered
identifier failing the keep test. -/
def toRemove (currentIds registeredIds : List String) : List String :=
  registeredIds.filter (fun r => ! keep_device currentIds r)

/-- The entity-removal test of
`util.py::cleanup_orphaned_entities_and_devices`: an entry of this config
entry and platform is removed when its `entity_id` is not current and its
`unique_id` is not current (or empty).  No suffix handling of any kind. -/
def cleanup_should_remove (cfgId platform : String)
    (curEntityIds curUniqueIds : List String)
    (entryCfgId entryDomain entityId uniqueId : String) : Bool :=
  entryCfgId = cfgId && entryDomain = platform &&
    (!curEntityIds.contains entityId &&
      (!curUniqueIds.contains uniqueId || uniqueId = ""))

/-- Modelled from the spec: the suffix-normalization the spec describes —
strip a known synthetic suffix (`_low_battery`, `_malfunction`, `_debug`)
from an identifier before matching.  Stated only to compare the reconciliation rule of the spec with that of the code; the code never strips suffixes. -/
def stripSuffix (sfx id : String) : String :=
  String.mk (id.data.take (id.data.length - sfx.data.length))

def normalizeId (id : String) : String :=
  if "_low_battery".data.isSuffixOf id.data then stripSuffix "_low_battery" id
  else if "_malfunction".data.isSuffixOf id.data then stripSuffix "_malfunction" id
  else if "_debug".data.isSuffixOf id.data then stripSuffix "_debug" id
  else id

/-- C5 counterexample: registered id `"abc_low_battery"` with current ids
`["abc"]` — its suffix-normalized form `"abc"` matches the current ids, yet
the code includes it in the removal set (the code appends suffixes to the
registered id; it never strips them). -/
theorem reconcile_normalized_match_removed :
    normalizeId "abc_low_battery" = "abc" ∧
      "abc" ∈ ["abc"] ∧
      "abc_low_battery" ∈ toRemove ["abc"] ["abc_low_battery"] := by
  refine ⟨?_, List.mem_singleton.mpr rfl, ?_⟩
  · decide
  · simp [toRemove, keep_device]

/-- C5 (amended): a registered identifier is in the removal set iff neither
it nor any of its three suffix-APPENDED forms (`id_low_battery`,
`id_malfunction`, `id_debug`) appears among the current identifiers; matching
never strips suffixes from the registered identifier. -/
theorem reconcile_removal_characterization
    (currentIds registeredIds : List String) (r : String) :
    r ∈ toRemove currentIds registeredIds ↔
      r ∈ registeredIds ∧ r ∉ currentIds ∧
        (r ++ "_low_battery") ∉ currentIds ∧
        (r ++ "_malfunction") ∉ currentIds ∧
        (r ++ "_debug") ∉ currentIds := by
  simp [toRemove, List.mem_filter, keep_device, and_assoc]

/-! ## Device Normalizer (`controller.py::IntController.async_update`)

One normalization pass converts the raw per-device objects of the
`pyalarmdotcomajax` client into the flat `entity_data` dict plus per-kind id
sets of `IntCoordinatorDataStructure`, then derives the virtual low-battery /
malfunction / debug children and the camera configuration entities.

Conventions of the embedding: Python dicts become functions
`String → Option _` (at most one value per key, assignment overwrites);
Python sets become lists in insertion order (only membership is consumed
downstream); live callables (`async_*_callback` fields) and the opaque
`debug_data` payloads, copied verbatim and never inspected, are omitted;
enum values from the external client are the variants listed in `const.py`,
with sensor subtypes kept as plain strings (the blacklist constant
`SENSOR_SUBTYPE_BLACKLIST` is defined outside these sources and is passed in
as a parameter). -/

/-- The `const.py::ADCISensorState`. -/
inductive SensorState where
  | UNKNOWN
  | CLOSED
  | OPEN
  | IDLE
  | ACTIVE
  | DRY
  | WET
deriving DecidableEq, Repr

/-- The `const.py::ADCIGarageDoorState`. -/
inductive GarageDoorState where
  | OPEN
  | CLOSED
deriving DecidableEq, Repr

/-- Light states of the external client (not listed in `const.py`). -/
inductive LightState where
  | ON
  | OFF
deriving DecidableEq, Repr

/-- Python `a or b` on two nullable booleans, as used for
`src.battery_low or src.battery_critical`: `a` when `a` is truthy (i.e.
`True`), else `b`. -/
def pyOr (a b : Option Bool) : Option Bool :=
  if a = some true then a else b

/-- The `pyalarmdotcomajax` system object fields read by `async_update`. -/
structure RawSystem where
  id_ : String
  name : String
  malfunction : Option Bool
  unit_id : String
  mac_address : String
deriving DecidableEq, Repr

/-- Partition object fields read by `async_update`. -/
structure RawPartition where
  id_ : String
  name : String
  state : Option PartitionState
  malfunction : Option Bool
  system_id : Option String
  mac_address : String
  raw_state_text : String
  desired_state : Option PartitionState
  uncleared_issues : Option Bool
  read_only : Option Bool
deriving DecidableEq, Repr

/-- Sensor object fields read by `async_update`. -/
structure RawSensor where
  id_ : String
  name : String
  state : Option SensorState
  malfunction : Option Bool
  partition_id : Option String
  battery_low : Option Bool
  battery_critical : Option Bool
  mac_address : String
  raw_state_text : String
  device_subtype : Option String
deriving DecidableEq, Repr

/-- Lock object fields read by `async_update`. -/
structure RawLock where
  id_ : String
  name : String
  state : Option LockState
  malfunction : Option Bool
  partition_id : Option String
  battery_low : Option Bool
  battery_critical : Option Bool
  mac_address : String
  raw_state_text : String
  desired_state : Option LockState
  read_only : Option Bool
deriving DecidableEq, Repr

/-- Light object fields read by `async_update`. -/
structure RawLight where
  id_ : String
  name : String
  state : Option LightState
  malfunction : Option Bool
  partition_id : Option String
  mac_address : String
  raw_state_text : String
  desired_state : Option LightState
  brightness : Option Nat
  read_only : Option Bool
  supports_state_tracking : Option Bool
deriving DecidableEq, Repr

/-- Garage-door object fields read by `async_update`. -/
structure RawGarageDoor where
  id_ : String
  name : String
  state : Option GarageDoorState
  malfunction : Option Bool
  partition_id : Option String
  mac_address : String
  raw_state_text : String
  desired_state : Option GarageDoorState
  read_only : Option Bool
deriving DecidableEq, Repr

/-- The `pyalarmdotcomajax.extensions.ConfigurationOptionType` variants
dispatched on by the configuration-device loop (`OTHER` stands for any
further variant). -/
inductive ConfigOptionType where
  | BINARY_CHIME
  | MOTION_SENSITIVITY
  | ADJUSTABLE_CHIME
  | COLOR
  | BRIGHTNESS
  | OTHER
deriving DecidableEq, Repr

/-- One entry of `camera.settings`: a `ConfigurationOption` dict. -/
structure ConfigOption where
  slug : String
  name : String
  option_type : ConfigOptionType
deriving DecidableEq, Repr

/-- Camera object fields read by `async_update`. -/
structure RawCamera where
  id_ : String
  name : String
  partition_id : Option String
  mac_address : String
  settings : List ConfigOption
deriving DecidableEq, Repr

/-- The raw device lists exposed by the client (`self._alarm.systems`,
`.partitions`, `.sensors`, `.locks`, `.lights`, `.garage_doors`,
`.cameras`). -/
structure RawData where
  systems : List RawSystem
  partitions : List RawPartition
  sensors : List RawSensor
  locks : List RawLock
  lights : List RawLight
  garage_doors : List RawGarageDoor
  cameras : List RawCamera
deriving DecidableEq, Repr

/-- The `IntSystemDataStructure` entry built by the systems loop. -/
structure SystemEntity where
  unique_id : String
  name : String
  malfunction : Option Bool
  unit_id : String
  mac_address : String
deriving DecidableEq, Repr

/-- The `IntAlarmControlPanel.DataStructure` entry built by the partitions loop. -/
structure PartitionEntity where
  unique_id : String
  name : String
  state : Option PartitionState
  malfunction : Option Bool
  parent_id : Option String
  mac_address : String
  raw_state_text : String
  desired_state : Option PartitionState
  uncleared_issues : Option Bool
  read_only : Option Bool
deriving DecidableEq, Repr

/-- The `IntBinarySensor.DataStructure` entry built by the sensors loop. -/
structure SensorEntity where
  unique_id : String
  name : String
  state : Option SensorState
  malfunction : Option Bool
  parent_id : Option String
  battery_low : Option Bool
  mac_address : String
  raw_state_text : String
  device_subtype : Option String
deriving DecidableEq, Repr

/-- The `IntLock.DataStructure` entry built by the locks loop. -/
structure LockEntity where
  unique_id : String
  name : String
  state : Option LockState
  malfunction : Option Bool
  parent_id : Option String
  battery_low : Option Bool
  mac_address : String
  raw_state_text : String
  desired_state : Option LockState
  read_only : Option Bool
deriving DecidableEq, Repr

/-- The `IntLight.DataStructure` entry built by the lights loop. -/
structure LightEntity where
  unique_id : String
  name : String
  state : Option LightState
  malfunction : Option Bool
  parent_id : Option String
  mac_address : String
  raw_state_text : String
  desired_state : Option LightState
  brightness : Option Nat
  read_only : Option Bool
  supports_state_tracking : Option Bool
deriving DecidableEq, Repr

/-- The `IntCover.DataStructure` entry built by the garage-doors loop. -/
structure GarageDoorEntity where
  unique_id : String
  name : String
  state : Option GarageDoorState
  malfunction : Option Bool
  parent_id : Option String
  mac_address : String
  raw_state_text : String
  desired_state : Option GarageDoorState
  read_only : Option Bool
deriving DecidableEq, Repr

/-- The `IntConfigOnlyDeviceDataStructure` entry built by the cameras loop
(`model = "Skybell HD"`, `manufacturer = "Skybell"`). -/
structure CameraEntity where
  unique_id : String
  name : String
  parent_id : Option String
  mac_address : String
  model : String
  manufacturer : String
deriving DecidableEq, Repr

/-- Virtual low-battery entry built by the low-battery-sensors loop:
`{unique_id: f"{parent.unique_id}_low_battery", name: f"{parent.name}:
Battery", state: parent.battery_low, parent_id: parent.unique_id}`. -/
structure BatteryEntity where
  unique_id : String
  name : String
  state : Option Bool
  parent_id : String
deriving DecidableEq, Repr

/-- Virtual malfunction entry built by the malfunction-sensors loop. -/
structure MalfunctionEntity where
  unique_id : String
  name : String
  parent_id : String
  state : Option Bool
deriving DecidableEq, Repr

/-- The `IntDebugButton.DataStructure` entry built by the debug-buttons loop. -/
structure DebugEntity where
  unique_id : String
  name : String
  parent_id : String
deriving DecidableEq, Repr

/-- Configuration entity built from a camera `ConfigurationOption`. -/
structure ConfigEntity where
  unique_id : String
  parent_id : String
  name : String
  config_option : ConfigOption
deriving DecidableEq, Repr

/-- A value of the `entity_data` dict: one of the per-kind `TypedDict`
shapes. -/
inductive IntEntity where
  | system (e : SystemEntity)
  | partition (e : PartitionEntity)
  | sensor (e : SensorEntity)
  | lock (e : LockEntity)
  | light (e : LightEntity)
  | garageDoor (e : GarageDoorEntity)
  | camera (e : CameraEntity)
  | battery (e : BatteryEntity)
  | malfunctionSensor (e : MalfunctionEntity)
  | debugButton (e : DebugEntity)
  | configOption (e : ConfigEntity)
deriving DecidableEq, Repr

/-- The `entry["unique_id"]` — present on every entity shape. -/
def IntEntity.uid : IntEntity → String
  | .system e => e.unique_id
  | .partition e => e.unique_id
  | .sensor e => e.unique_id
  | .lock e => e.unique_id
  | .light e => e.unique_id
  | .garageDoor e => e.unique_id
  | .camera e => e.unique_id
  | .battery e => e.unique_id
  | .malfunctionSensor e => e.unique_id
  | .debugButton e => e.unique_id
  | .configOption e => e.unique_id

/-- The `entry.get("name")` — present on every entity shape. -/
def IntEntity.get_name : IntEntity → String
  | .system e => e.name
  | .partition e => e.name
  | .sensor e => e.name
  | .lock e => e.name
  | .light e => e.name
  | .garageDoor e => e.name
  | .camera e => e.name
  | .battery e => e.name
  | .malfunctionSensor e => e.name
  | .debugButton e => e.name
  | .configOption e => e.name

/-- The `entry.get("battery_low")` — `None` for shapes without the key. -/
def IntEntity.get_battery_low : IntEntity → Option Bool
  | .sensor e => e.battery_low
  | .lock e => e.battery_low
  | _ => none

/-- The `entry.get("malfunction")` — `None` for shapes without the key. -/
def IntEntity.get_malfunction : IntEntity → Option Bool
  | .system e => e.malfunction
  | .partition e => e.malfunction
  | .sensor e => e.malfunction
  | .lock e => e.malfunction
  | .light e => e.malfunction
  | .garageDoor e => e.malfunction
  | _ => none

/-- The `entity_data` dict: a map from unique id to entity. -/
def EMap : Type := String → Option IntEntity

/-- The `entity_data[k] = v` (dict assignment: overwrites any previous value). -/
def EMap.insert (m : EMap) (k : String) (v : IntEntity) : EMap :=
  fun k' => if k' = k then some v else m k'

/-- The empty dict. -/
def EMap.empty : EMap := fun _ => none

/-- One real-device loop: for each `d` in `ds`, `entity_data[key d] = mk d`
and `ids.add(key d)`. -/
def addDevices {α : Type} (key : α → String) (mk : α → IntEntity)
    (ds : List α) (acc : EMap × List String) : EMap × List String :=
  ds.foldl (fun acc d => (acc.1.insert (key d) (mk d), acc.2 ++ [key d])) acc

/-- One iteration of a meta-device (virtual-child) loop: look the parent id
up in `entity_data`, build the child from the stored parent entry with
`uid` set to the stored parent unique id plus `sfx`, store it and add its id.  (The
lookup cannot miss in the source — every id in the id sets was inserted —
but the skip branch keeps the function total.) -/
def childStep (sfx : String) (mk : IntEntity → String → IntEntity)
    (acc : EMap × List String) (pid : String) : EMap × List String :=
  match acc.1 pid with
  | none => acc
  | some pe =>
      let uid := pe.uid ++ sfx
      (acc.1.insert uid (mk pe uid), acc.2 ++ [uid])

/-- A whole meta-device loop over the parent ids. -/
def childFold (sfx : String) (mk : IntEntity → String → IntEntity)
    (pids : List String) (acc : EMap × List String) : EMap × List String :=
  pids.foldl (childStep sfx mk) acc

/-- Systems loop body (`controller.py` lines 296-310). -/
def mkSystemEntity (d : RawSystem) : IntEntity :=
  .system { unique_id := d.id_, name := d.name, malfunction := d.malfunction,
            unit_id := d.unit_id, mac_address := d.mac_address }

/-- Partitions loop body (lines 318-341); `parent_id = src.system_id`. -/
def mkPartitionEntity (d : RawPartition) : IntEntity :=
  .partition { unique_id := d.id_, name := d.name, state := d.state,
               malfunction := d.malfunction, parent_id := d.system_id,
               mac_address := d.mac_address, raw_state_text := d.raw_state_text,
               desired_state := d.desired_state,
               uncleared_issues := d.uncleared_issues, read_only := d.read_only }

/-- Sensors loop body (lines 361-375);
`battery_low = src.battery_low or src.battery_critical`. -/
def mkSensorEntity (d : RawSensor) : IntEntity :=
  .sensor { unique_id := d.id_, name := d.name, state := d.state,
            malfunction := d.malfunction, parent_id := d.partition_id,
            battery_low := pyOr d.battery_low d.battery_critical,
            mac_address := d.mac_address, raw_state_text := d.raw_state_text,
            device_subtype := d.device_subtype }

/-- Locks loop body (lines 383-404). -/
def mkLockEntity (d : RawLock) : IntEntity :=
  .lock { unique_id := d.id_, name := d.name, state := d.state,
          malfunction := d.malfunction, parent_id := d.partition_id,
          battery_low := pyOr d.battery_low d.battery_critical,
          mac_address := d.mac_address, raw_state_text := d.raw_state_text,
          desired_state := d.desired_state, read_only := d.read_only }

/-- Lights loop body (lines 412-434). -/
def mkLightEntity (d : RawLight) : IntEntity :=
  .light { unique_id := d.id_, name := d.name, state := d.state,
           malfunction := d.malfunction, parent_id := d.partition_id,
           mac_address := d.mac_address, raw_state_text := d.raw_state_text,
           desired_state := d.desired_state, brightness := d.brightness,
           read_only := d.read_only,
           supports_state_tracking := d.supports_state_tracking }

/-- Garage-doors loop body (lines 442-462). -/
def mkGarageDoorEntity (d : RawGarageDoor) : IntEntity :=
  .garageDoor { unique_id := d.id_, name := d.name, state := d.state,
                malfunction := d.malfunction, parent_id := d.partition_id,
                mac_address := d.mac_address,
                raw_state_text := d.raw_state_text,
                desired_state := d.desired_state, read_only := d.read_only }

/-- Cameras loop body (lines 471-485). -/
def mkCameraEntity (d : RawCamera) : IntEntity :=
  .camera { unique_id := d.id_, name := d.name, parent_id := d.partition_id,
            mac_address := d.mac_address, model := "Skybell HD",
            manufacturer := "Skybell" }

/-- Low-battery loop body (lines 498-514). -/
def mkBatteryChild (pe : IntEntity) (uid : String) : IntEntity :=
  .battery { unique_id := uid, name := pe.get_name ++ ": Battery",
             state := pe.get_battery_low, parent_id := pe.uid }

/-- Malfunction loop body (lines 523-545). -/
def mkMalfunctionChild (pe : IntEntity) (uid : String) : IntEntity :=
  .malfunctionSensor { unique_id := uid,
                       name := pe.get_name ++ ": Malfunction",
                       parent_id := pe.uid, state := pe.get_malfunction }

/-- Debug-buttons loop body (lines 554-575). -/
def mkDebugChild (pe : IntEntity) (uid : String) : IntEntity :=
  .debugButton { unique_id := uid, name := pe.get_name ++ ": Debug",
                 parent_id := pe.uid }

/-- Configuration-entity unique id (line 596):
the camera id, an underscore, and the option slug with dashes replaced by underscores. -/
def configOptionUid (cam : RawCamera) (o : ConfigOption) : String :=
  cam.id_ ++ "_" ++ o.slug.replace "-" "_"

/-- Accumulator of the configuration-devices loop: the entity dict plus the
four per-platform id sets fed by the `option_type` dispatch. -/
structure ConfigAcc where
  m : EMap
  switchIds : List String
  selectIds : List String
  lightIds : List String
  numberIds : List String

/-- One camera configuration option (lines 590-627): build the entity, add
its id to the set matching its `option_type`, store it in `entity_data`. -/
def configStep (cam : RawCamera) (acc : ConfigAcc) (o : ConfigOption) :
    ConfigAcc :=
  let uid := configOptionUid cam o
  let ent : IntEntity := .configOption
    { unique_id := uid, parent_id := cam.id_, name := o.name,
      config_option := o }
  { m := acc.m.insert uid ent
    switchIds :=
      if o.option_type = .BINARY_CHIME then acc.switchIds ++ [uid]
      else acc.switchIds
    selectIds :=
      if o.option_type = .MOTION_SENSITIVITY ∨
          o.option_type = .ADJUSTABLE_CHIME then acc.selectIds ++ [uid]
      else acc.selectIds
    lightIds :=
      if o.option_type = .COLOR then acc.lightIds ++ [uid]
      else acc.lightIds
    numberIds :=
      if o.option_type = .BRIGHTNESS then acc.numberIds ++ [uid]
      else acc.numberIds }

/-- The configuration-devices loop over all cameras and their settings
(cameras without settings contribute nothing). -/
def configFold (cams : List RawCamera) (acc : ConfigAcc) : ConfigAcc :=
  cams.foldl (fun a cam => cam.settings.foldl (configStep cam) a) acc

/-- The sensors surviving the subtype blacklist filter (lines 353-359:
`if src_sensor.device_subtype in adci.SENSOR_SUBTYPE_BLACKLIST: continue`).
The blacklist is a set of subtype values; membership of the (possibly
missing) subtype is Python `in`. -/
def keptSensors (blacklist : List (Option String)) (raw : RawData) :
    List RawSensor :=
  raw.sensors.filter (fun d => ! blacklist.contains d.device_subtype)

/-- Stage 1, systems loop. -/
def sysStage (raw : RawData) : EMap × List String :=
  addDevices (fun d => d.id_) mkSystemEntity raw.systems (EMap.empty, [])

/-- Stage 2, partitions loop. -/
def partStage (raw : RawData) : EMap × List String :=
  addDevices (fun d => d.id_) mkPartitionEntity raw.partitions
    ((sysStage raw).1, [])

/-- Stage 3, sensors loop (blacklisted subtypes skipped). -/
def sensStage (blacklist : List (Option String)) (raw : RawData) :
    EMap × List String :=
  addDevices (fun d => d.id_) mkSensorEntity (keptSensors blacklist raw)
    ((partStage raw).1, [])

/-- Stage 4, locks loop. -/
def lockStage (blacklist : List (Option String)) (raw : RawData) :
    EMap × List String :=
  addDevices (fun d => d.id_) mkLockEntity raw.locks
    ((sensStage blacklist raw).1, [])

/-- Stage 5, lights loop. -/
def lightStage (blacklist : List (Option String)) (raw : RawData) :
    EMap × List String :=
  addDevices (fun d => d.id_) mkLightEntity raw.lights
    ((lockStage blacklist raw).1, [])

/-- Stage 6, garage-doors loop. -/
def garageStage (blacklist : List (Option String)) (raw : RawData) :
    EMap × List String :=
  addDevices (fun d => d.id_) mkGarageDoorEntity raw.garage_doors
    ((lightStage blacklist raw).1, [])

/-- Stage 7, cameras loop. -/
def camStage (blacklist : List (Option String)) (raw : RawData) :
    EMap × List String :=
  addDevices (fun d => d.id_) mkCameraEntity raw.cameras
    ((garageStage blacklist raw).1, [])

/-- Stage 8, low-battery loop over `sensor_ids.union(lock_ids)`. -/
def battStage (blacklist : List (Option String)) (raw : RawData) :
    EMap × List String :=
  childFold "_low_battery" mkBatteryChild
    ((sensStage blacklist raw).2 ++ (lockStage blacklist raw).2)
    ((camStage blacklist raw).1, [])

/-- Stage 9, malfunction loop over
`sensor_ids.union(lock_ids, partition_ids, garage_door_ids, light_ids)`. -/
def malfStage (blacklist : List (Option String)) (raw : RawData) :
    EMap × List String :=
  childFold "_malfunction" mkMalfunctionChild
    ((sensStage blacklist raw).2 ++ (lockStage blacklist raw).2 ++
      (partStage raw).2 ++ (garageStage blacklist raw).2 ++
      (lightStage blacklist raw).2)
    ((battStage blacklist raw).1, [])

/-- Stage 10, debug-buttons loop over
`sensor_ids.union(lock_ids, partition_ids, light_ids, garage_door_ids)`. -/
def debugStage (blacklist : List (Option String)) (raw : RawData) :
    EMap × List String :=
  childFold "_debug" mkDebugChild
    ((sensStage blacklist raw).2 ++ (lockStage blacklist raw).2 ++
      (partStage raw).2 ++ (lightStage blacklist raw).2 ++
      (garageStage blacklist raw).2)
    ((malfStage blacklist raw).1, [])

/-- Stage 11, configuration-devices loop. -/
def configStage (blacklist : List (Option String)) (raw : RawData) :
    ConfigAcc :=
  configFold raw.cameras
    { m := (debugStage blacklist raw).1, switchIds := [], selectIds := [],
      lightIds := [], numberIds := [] }

/-- The `IntCoordinatorDataStructure`: the value returned by one normalization
pass (`controller.py` lines 631-649). -/
structure Snapshot where
  entity_data : EMap
  system_ids : List String
  partition_ids : List String
  sensor_ids : List String
  lock_ids : List String
  light_ids : List String
  garage_door_ids : List String
  camera_ids : List String
  low_battery_ids : List String
  malfunction_ids : List String
  debug_ids : List String
  config_switch_ids : List String
  config_light_ids : List String
  config_select_ids : List String
  config_number_ids : List String

/-- One full normalization pass of
`IntController.async_update` (the part after a successful client update). -/
def normalize (blacklist : List (Option String)) (raw : RawData) : Snapshot :=
  { entity_data := (configStage blacklist raw).m
    system_ids := (sysStage raw).2
    partition_ids := (partStage raw).2
    sensor_ids := (sensStage blacklist raw).2
    lock_ids := (lockStage blacklist raw).2
    light_ids := (lightStage blacklist raw).2
    garage_door_ids := (garageStage blacklist raw).2
    camera_ids := (camStage blacklist raw).2
    low_battery_ids := (battStage blacklist raw).2
    malfunction_ids := (malfStage blacklist raw).2
    debug_ids := (debugStage blacklist raw).2
    config_switch_ids := (configStage blacklist raw).switchIds
    config_light_ids := (configStage blacklist raw).lightIds
    config_select_ids := (configStage blacklist raw).selectIds
    config_number_ids := (configStage blacklist raw).numberIds }

/-- Every raw device id, in processing order (used to state id-uniqueness
hypotheses). -/
def allRawIds (raw : RawData) : List String :=
  raw.systems.map (fun d => d.id_) ++ raw.partitions.map (fun d => d.id_) ++
    raw.sensors.map (fun d => d.id_) ++ raw.locks.map (fun d => d.id_) ++
    raw.lights.map (fun d => d.id_) ++
    raw.garage_doors.map (fun d => d.id_) ++
    raw.cameras.map (fun d => d.id_)

/-- The three synthetic child-id suffixes. -/
def synthSuffixes : List String := ["_low_battery", "_malfunction", "_debug"]

/-! ### Identifier arithmetic

Collision facts about appended id suffixes, used to track single dict keys
through the normalization loops. -/

theorem append_left_eq_of_append_eq {p q s : String} (h : p ++ s = q ++ s) :
    p = q := by
  have hd := congrArg String.data h
  rw [String.data_append, String.data_append] at hd
  exact String.ext (List.append_inj' hd rfl).1

theorem ne_append_of_not_suffixed {k s : String} (h : ¬ s.data <:+ k.data)
    (q : String) : q ++ s ≠ k := by
  intro he
  refine h ⟨q.data, ?_⟩
  have hd := congrArg String.data he
  rwa [String.data_append] at hd

theorem append_ne_append_of_suffix_independent {s t : String}
    (h1 : ¬ s.data <:+ t.data) (h2 : ¬ t.data <:+ s.data) (p q : String) :
    p ++ s ≠ q ++ t := by
  intro he
  have hd := congrArg String.data he
  rw [String.data_append, String.data_append] at hd
  rcases List.append_eq_append_iff.mp hd with ⟨a, _, ha⟩ | ⟨c, _, hc⟩
  · exact h2 ⟨a, ha.symm⟩
  · exact h1 ⟨c, hc.symm⟩

theorem suffixed_of_eq_append {k q s : String} (h : k = q ++ s) :
    s.data <:+ k.data := by
  refine ⟨q.data, ?_⟩
  have hd := congrArg String.data h
  rw [String.data_append] at hd
  exact hd.symm

/-! ### Dict and loop lemmas -/

theorem EMap.insert_self (m : EMap) (k : String) (v : IntEntity) :
    m.insert k v k = some v := by
  simp [EMap.insert]

theorem EMap.insert_ne (m : EMap) {k k' : String} (v : IntEntity)
    (h : k' ≠ k) : m.insert k v k' = m k' := by
  simp [EMap.insert, h]

/-- Every entity is stored under its own `unique_id` as dict key. -/
def KeyedUid (m : EMap) : Prop :=
  ∀ k e, m k = some e → e.uid = k

theorem keyedUid_empty : KeyedUid EMap.empty := by
  intro k e he
  simp [EMap.empty] at he

theorem keyedUid_insert {m : EMap} {k : String} {v : IntEntity}
    (h : KeyedUid m) (hv : v.uid = k) : KeyedUid (m.insert k v) := by
  intro k' e he
  unfold EMap.insert at he
  split at he
  · rename_i heq
    cases he
    rw [hv, heq]
  · exact h k' e he

theorem addDevices_cons {α : Type} (key : α → String) (mk : α → IntEntity)
    (d : α) (ds : List α) (acc : EMap × List String) :
    addDevices key mk (d :: ds) acc =
      addDevices key mk ds (acc.1.insert (key d) (mk d), acc.2 ++ [key d]) :=
  rfl

theorem addDevices_fst_of_ne {α : Type} (key : α → String)
    (mk : α → IntEntity) (ds : List α) (acc : EMap × List String) (k : String)
    (h : ∀ d ∈ ds, key d ≠ k) :
    (addDevices key mk ds acc).1 k = acc.1 k := by
  induction ds generalizing acc with
  | nil => rfl
  | cons d rest ih =>
    rw [addDevices_cons, ih _ (fun d' hd' => h d' (List.mem_cons_of_mem _ hd'))]
    exact EMap.insert_ne _ _ (Ne.symm (h d (List.mem_cons_self d rest)))

theorem addDevices_fst_of_mem {α : Type} (key : α → String)
    (mk : α → IntEntity) (ds : List α) (acc : EMap × List String) (d : α)
    (hd : d ∈ ds) (huniq : ∀ d' ∈ ds, key d' = key d → d' = d) :
    (addDevices key mk ds acc).1 (key d) = some (mk d) := by
  induction ds generalizing acc with
  | nil => cases hd
  | cons e rest ih =>
    rw [addDevices_cons]
    rcases List.mem_cons.mp hd with he | hrest
    · subst he
      by_cases hmem : d ∈ rest
      · exact ih _ hmem fun d' h' hk => huniq d' (List.mem_cons_of_mem _ h') hk
      · rw [addDevices_fst_of_ne]
        · exact EMap.insert_self _ _ _
        · intro d' hd' hk
          exact hmem ((huniq d' (List.mem_cons_of_mem _ hd') hk) ▸ hd')
    · exact ih _ hrest fun d' h' hk => huniq d' (List.mem_cons_of_mem _ h') hk

theorem addDevices_snd {α : Type} (key : α → String) (mk : α → IntEntity)
    (ds : List α) (acc : EMap × List String) :
    (addDevices key mk ds acc).2 = acc.2 ++ ds.map key := by
  induction ds generalizing acc with
  | nil => simp [addDevices]
  | cons d rest ih =>
    rw [addDevices_cons, ih]
    simp

theorem keyedUid_addDevices {α : Type} {key : α → String}
    {mk : α → IntEntity} {ds : List α} {acc : EMap × List String}
    (h : KeyedUid acc.1) (hmk : ∀ d, (mk d).uid = key d) :
    KeyedUid (addDevices key mk ds acc).1 := by
  induction ds generalizing acc with
  | nil => exact h
  | cons d rest ih =>
    rw [addDevices_cons]
    exact ih (keyedUid_insert h (hmk d))

theorem childFold_cons (sfx : String) (mk : IntEntity → String → IntEntity)
    (p : String) (pids : List String) (acc : EMap × List String) :
    childFold sfx mk (p :: pids) acc =
      childFold sfx mk pids (childStep sfx mk acc p) :=
  rfl

theorem keyedUid_childStep {sfx : String} {mk : IntEntity → String → IntEntity}
    {acc : EMap × List String} {p : String} (h : KeyedUid acc.1)
    (hmk : ∀ pe uid, (mk pe uid).uid = uid) :
    KeyedUid (childStep sfx mk acc p).1 := by
  unfold childStep
  cases hpe : acc.1 p with
  | none => exact h
  | some pe => exact keyedUid_insert h (hmk pe _)

theorem keyedUid_childFold {sfx : String} {mk : IntEntity → String → IntEntity}
    {pids : List String} {acc : EMap × List String} (h : KeyedUid acc.1)
    (hmk : ∀ pe uid, (mk pe uid).uid = uid) :
    KeyedUid (childFold sfx mk pids acc).1 := by
  induction pids generalizing acc with
  | nil => exact h
  | cons p rest ih =>
    rw [childFold_cons]
    exact ih (keyedUid_childStep h hmk)

theorem childFold_fst_of_ne (sfx : String) (mk : IntEntity → String → IntEntity)
    (pids : List String) (acc : EMap × List String) (k : String)
    (hm : KeyedUid acc.1) (hmk : ∀ pe uid, (mk pe uid).uid = uid)
    (h : ∀ p ∈ pids, p ++ sfx ≠ k) :
    (childFold sfx mk pids acc).1 k = acc.1 k := by
  induction pids generalizing acc with
  | nil => rfl
  | cons p rest ih =>
    rw [childFold_cons,
      ih _ (keyedUid_childStep hm hmk)
        (fun p' hp' => h p' (List.mem_cons_of_mem _ hp'))]
    unfold childStep
    cases hpe : acc.1 p with
    | none => rfl
    | some pe =>
      have hu : pe.uid = p := hm p pe hpe
      exact EMap.insert_ne _ _
        (by rw [hu]; exact Ne.symm (h p (List.mem_cons_self p rest)))

theorem childFold_snd_mono (sfx : String) (mk : IntEntity → String → IntEntity)
    (pids : List String) (acc : EMap × List String) (x : String)
    (hx : x ∈ acc.2) : x ∈ (childFold sfx mk pids acc).2 := by
  induction pids generalizing acc with
  | nil => exact hx
  | cons p rest ih =>
    rw [childFold_cons]
    refine ih _ ?_
    unfold childStep
    cases acc.1 p with
    | none => exact hx
    | some pe => exact List.mem_append_left _ hx

theorem childFold_snd_origin (sfx : String)
    (mk : IntEntity → String → IntEntity) (pids : List String)
    (acc : EMap × List String) (x : String) (hm : KeyedUid acc.1)
    (hmk : ∀ pe uid, (mk pe uid).uid = uid)
    (hx : x ∈ (childFold sfx mk pids acc).2) :
    x ∈ acc.2 ∨ ∃ p ∈ pids, x = p ++ sfx := by
  induction pids generalizing acc with
  | nil => exact Or.inl hx
  | cons p rest ih =>
    rw [childFold_cons] at hx
    rcases ih _ (keyedUid_childStep hm hmk) hx with hin | ⟨q, hq, hqx⟩
    · unfold childStep at hin
      cases hpe : acc.1 p with
      | none =>
        rw [hpe] at hin
        exact Or.inl hin
      | some pe =>
        rw [hpe] at hin
        rcases List.mem_append.mp hin with h1 | h2
        · exact Or.inl h1
        · have hu : pe.uid = p := hm p pe hpe
          refine Or.inr ⟨p, List.mem_cons_self p rest, ?_⟩
          rw [← hu]
          exact List.mem_singleton.mp h2
    · exact Or.inr ⟨q, List.mem_cons_of_mem _ hq, hqx⟩

theorem childFold_spec (sfx : String) (mk : IntEntity → String → IntEntity)
    (pids : List String) (acc : EMap × List String) (pid : String)
    (pe : IntEntity) (hm : KeyedUid acc.1)
    (hmk : ∀ q u, (mk q u).uid = u) (hmem : pid ∈ pids) (hnd : pids.Nodup)
    (hfree : ∀ p ∈ pids, ¬ sfx.data <:+ p.data) (hpe : acc.1 pid = some pe) :
    (childFold sfx mk pids acc).1 (pid ++ sfx) = some (mk pe (pid ++ sfx)) ∧
      (pid ++ sfx) ∈ (childFold sfx mk pids acc).2 := by
  induction pids generalizing acc with
  | nil => cases hmem
  | cons p rest ih =>
    rw [childFold_cons]
    rcases List.mem_cons.mp hmem with rfl | hrest
    · have hu : pe.uid = pid := hm pid pe hpe
      have hstep : childStep sfx mk acc pid =
          (acc.1.insert (pid ++ sfx) (mk pe (pid ++ sfx)),
            acc.2 ++ [pid ++ sfx]) := by
        unfold childStep
        rw [hpe]
        dsimp only
        rw [hu]
      rw [hstep]
      constructor
      · rw [childFold_fst_of_ne]
        · exact EMap.insert_self _ _ _
        · exact keyedUid_insert hm (hmk pe (pid ++ sfx))
        · exact hmk
        · intro q hq he
          exact (List.nodup_cons.mp hnd).1
            ((append_left_eq_of_append_eq he) ▸ hq)
      · exact childFold_snd_mono _ _ _ _ _ (by simp)
    · have hm' : KeyedUid (childStep sfx mk acc p).1 :=
        keyedUid_childStep hm hmk
      have hpe' : (childStep sfx mk acc p).1 pid = some pe := by
        unfold childStep
        cases hq : acc.1 p with
        | none => exact hpe
        | some qe =>
          have hu : qe.uid = p := hm p qe hq
          dsimp only
          rw [hu]
          rw [EMap.insert_ne]
          · exact hpe
          · intro hc
            exact hfree pid (List.mem_cons_of_mem _ hrest)
              (suffixed_of_eq_append hc)
      exact ih _ hm' hrest (List.nodup_cons.mp hnd).2
        (fun p' hp' => hfree p' (List.mem_cons_of_mem _ hp')) hpe'

theorem keyedUid_configStep {cam : RawCamera} {acc : ConfigAcc}
    {o : ConfigOption} (h : KeyedUid acc.m) :
    KeyedUid (configStep cam acc o).m :=
  keyedUid_insert h rfl

theorem keyedUid_configSettings {cam : RawCamera} {os : List ConfigOption}
    {acc : ConfigAcc} (h : KeyedUid acc.m) :
    KeyedUid (os.foldl (configStep cam) acc).m := by
  induction os generalizing acc with
  | nil => exact h
  | cons o rest ih => exact ih (keyedUid_configStep h)

theorem keyedUid_configFold {cams : List RawCamera} {acc : ConfigAcc}
    (h : KeyedUid acc.m) : KeyedUid (configFold cams acc).m := by
  induction cams generalizing acc with
  | nil => exact h
  | cons cam rest ih => exact ih (keyedUid_configSettings h)

theorem configSettings_m_of_ne (cam : RawCamera) (os : List ConfigOption)
    (acc : ConfigAcc) (k : String)
    (h : ∀ o ∈ os, configOptionUid cam o ≠ k) :
    (os.foldl (configStep cam) acc).m k = acc.m k := by
  induction os generalizing acc with
  | nil => rfl
  | cons o rest ih =>
    rw [List.foldl_cons,
      ih _ (fun o' ho' => h o' (List.mem_cons_of_mem _ ho'))]
    exact EMap.insert_ne _ _ (Ne.symm (h o (List.mem_cons_self o rest)))

theorem configFold_m_of_ne (cams : List RawCamera) (acc : ConfigAcc)
    (k : String)
    (h : ∀ cam ∈ cams, ∀ o ∈ cam.settings, configOptionUid cam o ≠ k) :
    (configFold cams acc).m k = acc.m k := by
  induction cams generalizing acc with
  | nil => rfl
  | cons cam rest ih =>
    rw [show configFold (cam :: rest) acc =
        configFold rest (cam.settings.foldl (configStep cam) acc) from rfl,
      ih _ (fun c hc => h c (List.mem_cons_of_mem _ hc))]
    exact configSettings_m_of_ne cam cam.settings acc k
      (h cam (List.mem_cons_self cam rest))

theorem configSettings_ids_origin (cam : RawCamera) (os : List ConfigOption)
    (acc : ConfigAcc) (x : String) :
    (x ∈ (os.foldl (configStep cam) acc).switchIds →
        x ∈ acc.switchIds ∨ ∃ o ∈ os, x = configOptionUid cam o) ∧
      (x ∈ (os.foldl (configStep cam) acc).selectIds →
        x ∈ acc.selectIds ∨ ∃ o ∈ os, x = configOptionUid cam o) ∧
      (x ∈ (os.foldl (configStep cam) acc).lightIds →
        x ∈ acc.lightIds ∨ ∃ o ∈ os, x = configOptionUid cam o) ∧
      (x ∈ (os.foldl (configStep cam) acc).numberIds →
        x ∈ acc.numberIds ∨ ∃ o ∈ os, x = configOptionUid cam o) := by
  induction os generalizing acc with
  | nil => exact ⟨Or.inl, Or.inl, Or.inl, Or.inl⟩
  | cons o rest ih =>
    have step : ∀ l : List String,
        x ∈ l ++ [configOptionUid cam o] →
        x ∈ l ∨ ∃ o' ∈ o :: rest, x = configOptionUid cam o' := by
      intro l hx
      rcases List.mem_append.mp hx with h1 | h2
      · exact Or.inl h1
      · exact Or.inr ⟨o, List.mem_cons_self o rest,
          List.mem_singleton.mp h2⟩
    have lift : ∀ l : List String,
        (x ∈ l ∨ ∃ o' ∈ rest, x = configOptionUid cam o') →
        x ∈ l ∨ ∃ o' ∈ o :: rest, x = configOptionUid cam o' := by
      rintro l (h1 | ⟨o', ho', hx⟩)
      · exact Or.inl h1
      · exact Or.inr ⟨o', List.mem_cons_of_mem _ ho', hx⟩
    rw [List.foldl_cons]
    refine ⟨fun hx => ?_, fun hx => ?_, fun hx => ?_, fun hx => ?_⟩
    · rcases (ih (configStep cam acc o)).1 hx with h1 | h2
      · unfold configStep at h1
        dsimp only at h1
        split at h1
        · exact step _ h1
        · exact lift _ (Or.inl h1)
      · exact lift _ (Or.inr h2)
    · rcases (ih (configStep cam acc o)).2.1 hx with h1 | h2
      · unfold configStep at h1
        dsimp only at h1
        split at h1
        · exact step _ h1
        · exact lift _ (Or.inl h1)
      · exact lift _ (Or.inr h2)
    · rcases (ih (configStep cam acc o)).2.2.1 hx with h1 | h2
      · unfold configStep at h1
        dsimp only at h1
        split at h1
        · exact step _ h1
        · exact lift _ (Or.inl h1)
      · exact lift _ (Or.inr h2)
    · rcases (ih (configStep cam acc o)).2.2.2 hx with h1 | h2
      · unfold configStep at h1
        dsimp only at h1
        split at h1
        · exact step _ h1
        · exact lift _ (Or.inl h1)
      · exact lift _ (Or.inr h2)

theorem configFold_ids_origin (cams : List RawCamera) (acc : ConfigAcc)
    (x : String) :
    (x ∈ (configFold cams acc).switchIds →
        x ∈ acc.switchIds ∨
          ∃ cam ∈ cams, ∃ o ∈ cam.settings, x = configOptionUid cam o) ∧
      (x ∈ (configFold cams acc).selectIds →
        x ∈ acc.selectIds ∨
          ∃ cam ∈ cams, ∃ o ∈ cam.settings, x = configOptionUid cam o) ∧
      (x ∈ (configFold cams acc).lightIds →
        x ∈ acc.lightIds ∨
          ∃ cam ∈ cams, ∃ o ∈ cam.settings, x = configOptionUid cam o) ∧
      (x ∈ (configFold cams acc).numberIds →
        x ∈ acc.numberIds ∨
          ∃ cam ∈ cams, ∃ o ∈ cam.settings, x = configOptionUid cam o) := by
  induction cams generalizing acc with
  | nil => exact ⟨Or.inl, Or.inl, Or.inl, Or.inl⟩
  | cons cam rest ih =>
    have lift : ∀ (tgt l : List String)
        (hstep : x ∈ l → x ∈ tgt ∨ ∃ o ∈ cam.settings,
          x = configOptionUid cam o),
        (x ∈ l ∨ ∃ c ∈ rest, ∃ o ∈ c.settings, x = configOptionUid c o) →
        x ∈ tgt ∨
          ∃ c ∈ cam :: rest, ∃ o ∈ c.settings, x = configOptionUid c o := by
      rintro tgt l hstep (h1 | ⟨c, hc, o, ho, hx⟩)
      · rcases hstep h1 with h2 | ⟨o, ho, hx⟩
        · exact Or.inl h2
        · exact Or.inr ⟨cam, List.mem_cons_self cam rest, o, ho, hx⟩
      · exact Or.inr ⟨c, List.mem_cons_of_mem _ hc, o, ho, hx⟩
    rw [show configFold (cam :: rest) acc =
        configFold rest (cam.settings.foldl (configStep cam) acc) from rfl]
    have hset := configSettings_ids_origin cam cam.settings acc x
    have hih := ih (cam.settings.foldl (configStep cam) acc)
    exact ⟨fun hx => lift _ _ hset.1 (hih.1 hx),
      fun hx => lift _ _ hset.2.1 (hih.2.1 hx),
      fun hx => lift _ _ hset.2.2.1 (hih.2.2.1 hx),
      fun hx => lift _ _ hset.2.2.2 (hih.2.2.2 hx)⟩

/-! ### Stage bookkeeping -/

theorem sysStage_snd (raw : RawData) :
    (sysStage raw).2 = raw.systems.map fun d => d.id_ := by
  rw [sysStage, addDevices_snd]
  rfl

theorem partStage_snd (raw : RawData) :
    (partStage raw).2 = raw.partitions.map fun d => d.id_ := by
  rw [partStage, addDevices_snd]
  rfl

theorem sensStage_snd (blacklist : List (Option String)) (raw : RawData) :
    (sensStage blacklist raw).2 =
      (keptSensors blacklist raw).map fun d => d.id_ := by
  rw [sensStage, addDevices_snd]
  rfl

theorem lockStage_snd (blacklist : List (Option String)) (raw : RawData) :
    (lockStage blacklist raw).2 = raw.locks.map fun d => d.id_ := by
  rw [lockStage, addDevices_snd]
  rfl

theorem lightStage_snd (blacklist : List (Option String)) (raw : RawData) :
    (lightStage blacklist raw).2 = raw.lights.map fun d => d.id_ := by
  rw [lightStage, addDevices_snd]
  rfl

theorem garageStage_snd (blacklist : List (Option String)) (raw : RawData) :
    (garageStage blacklist raw).2 = raw.garage_doors.map fun d => d.id_ := by
  rw [garageStage, addDevices_snd]
  rfl

theorem camStage_snd (blacklist : List (Option String)) (raw : RawData) :
    (camStage blacklist raw).2 = raw.cameras.map fun d => d.id_ := by
  rw [camStage, addDevices_snd]
  rfl

theorem keyedUid_camStage (blacklist : List (Option String)) (raw : RawData) :
    KeyedUid (camStage blacklist raw).1 := by
  rw [camStage]
  refine keyedUid_addDevices ?_ fun d => rfl
  rw [garageStage]
  refine keyedUid_addDevices ?_ fun d => rfl
  rw [lightStage]
  refine keyedUid_addDevices ?_ fun d => rfl
  rw [lockStage]
  refine keyedUid_addDevices ?_ fun d => rfl
  rw [sensStage]
  refine keyedUid_addDevices ?_ fun d => rfl
  rw [partStage]
  refine keyedUid_addDevices ?_ fun d => rfl
  rw [sysStage]
  exact keyedUid_addDevices keyedUid_empty fun d => rfl

theorem keyedUid_battStage (blacklist : List (Option String)) (raw : RawData) :
    KeyedUid (battStage blacklist raw).1 := by
  rw [battStage]
  exact keyedUid_childFold (keyedUid_camStage blacklist raw) fun pe uid => rfl

theorem keyedUid_malfStage (blacklist : List (Option String)) (raw : RawData) :
    KeyedUid (malfStage blacklist raw).1 := by
  rw [malfStage]
  exact keyedUid_childFold (keyedUid_battStage blacklist raw) fun pe uid => rfl

theorem keyedUid_debugStage (blacklist : List (Option String))
    (raw : RawData) : KeyedUid (debugStage blacklist raw).1 := by
  rw [debugStage]
  exact keyedUid_childFold (keyedUid_malfStage blacklist raw) fun pe uid => rfl

theorem keyedUid_normalize (blacklist : List (Option String))
    (raw : RawData) : KeyedUid (normalize blacklist raw).entity_data := by
  show KeyedUid (configStage blacklist raw).m
  rw [configStage]
  exact keyedUid_configFold (keyedUid_debugStage blacklist raw)

/-- Uniqueness and cross-list disjointness facts extracted from
`(allRawIds raw).Nodup`. -/
theorem rawIds_facts (raw : RawData) (h : (allRawIds raw).Nodup) :
    ((raw.sensors.map fun d => d.id_).Nodup ∧
      (raw.locks.map fun d => d.id_).Nodup) ∧
    (∀ x ∈ raw.sensors.map fun d => d.id_,
      x ∉ (raw.systems.map fun d => d.id_) ∧
      x ∉ (raw.partitions.map fun d => d.id_) ∧
      x ∉ (raw.locks.map fun d => d.id_) ∧
      x ∉ (raw.lights.map fun d => d.id_) ∧
      x ∉ (raw.garage_doors.map fun d => d.id_) ∧
      x ∉ (raw.cameras.map fun d => d.id_)) ∧
    (∀ x ∈ raw.locks.map fun d => d.id_,
      x ∉ (raw.systems.map fun d => d.id_) ∧
      x ∉ (raw.partitions.map fun d => d.id_) ∧
      x ∉ (raw.sensors.map fun d => d.id_) ∧
      x ∉ (raw.lights.map fun d => d.id_) ∧
      x ∉ (raw.garage_doors.map fun d => d.id_) ∧
      x ∉ (raw.cameras.map fun d => d.id_)) := by
  have hc : ∀ x : String, (allRawIds raw).count x ≤ 1 := fun x =>
    List.nodup_iff_count_le_one.mp h x
  have hc' : ∀ x : String,
      (raw.systems.map fun d => d.id_).count x +
        (raw.partitions.map fun d => d.id_).count x +
        (raw.sensors.map fun d => d.id_).count x +
        (raw.locks.map fun d => d.id_).count x +
        (raw.lights.map fun d => d.id_).count x +
        (raw.garage_doors.map fun d => d.id_).count x +
        (raw.cameras.map fun d => d.id_).count x ≤ 1 := by
    intro x
    have := hc x
    simp only [allRawIds, List.count_append] at this
    omega
  have hpos : ∀ (l : List String) (x : String), x ∈ l → 0 < l.count x :=
    fun l x hx => List.count_pos_iff.mpr hx
  refine ⟨⟨?_, ?_⟩, ?_, ?_⟩
  · refine List.nodup_iff_count_le_one.mpr fun x => ?_
    have := hc' x
    omega
  · refine List.nodup_iff_count_le_one.mpr fun x => ?_
    have := hc' x
    omega
  · intro x hx
    have h1 := hpos _ x hx
    have h2 := hc' x
    refine ⟨fun hm => ?_, fun hm => ?_, fun hm => ?_, fun hm => ?_,
      fun hm => ?_, fun hm => ?_⟩ <;> · have := hpos _ x hm; omega
  · intro x hx
    have h1 := hpos _ x hx
    have h2 := hc' x
    refine ⟨fun hm => ?_, fun hm => ?_, fun hm => ?_, fun hm => ?_,
      fun hm => ?_, fun hm => ?_⟩ <;> · have := hpos _ x hm; omega

theorem sensorIds_sub_allRawIds (raw : RawData) :
    ∀ x ∈ raw.sensors.map fun d => d.id_, x ∈ allRawIds raw := by
  intro x hx
  simp only [allRawIds, List.mem_append]
  tauto

theorem lockIds_sub_allRawIds (raw : RawData) :
    ∀ x ∈ raw.locks.map fun d => d.id_, x ∈ allRawIds raw := by
  intro x hx
  simp only [allRawIds, List.mem_append]
  tauto

theorem keptSensorIds_sub (blacklist : List (Option String)) (raw : RawData) :
    ∀ x ∈ (keptSensors blacklist raw).map fun d => d.id_,
      x ∈ raw.sensors.map fun d => d.id_ := by
  intro x hx
  rcases List.mem_map.mp hx with ⟨d, hd, hdx⟩
  exact List.mem_map.mpr ⟨d, List.mem_of_mem_filter hd, hdx⟩

/-- C1: for every sensor (non-blacklisted) or lock whose `battery_low` and
`battery_critical` are both non-null, the snapshot holds exactly one virtual
battery entity at id `{parent}_low_battery` — the dict key of any entity is
its unique id, so the final conjunct pins that id to a single key — whose
state equals the (combined) `battery_low` flag of the parent entity. -/
theorem virtual_battery_invariant
    (blacklist : List (Option String)) (raw : RawData)
    (pid pname : String) (bl bc : Bool)
    (hnd : (allRawIds raw).Nodup)
    (hfree : ∀ sfx ∈ synthSuffixes, ∀ r ∈ allRawIds raw,
      ¬ sfx.data <:+ r.data)
    (hcfg : ∀ cam ∈ raw.cameras, ∀ o ∈ cam.settings,
      configOptionUid cam o ∉ allRawIds raw ∧
        ∀ sfx ∈ synthSuffixes, ¬ sfx.data <:+ (configOptionUid cam o).data)
    (hsrc :
      (∃ d ∈ raw.sensors, blacklist.contains d.device_subtype = false ∧
        d.id_ = pid ∧ d.name = pname ∧ d.battery_low = some bl ∧
        d.battery_critical = some bc) ∨
      (∃ d ∈ raw.locks, d.id_ = pid ∧ d.name = pname ∧
        d.battery_low = some bl ∧ d.battery_critical = some bc)) :
    (normalize blacklist raw).entity_data (pid ++ "_low_battery") =
      some (.battery { unique_id := pid ++ "_low_battery",
                       name := pname ++ ": Battery",
                       state := pyOr (some bl) (some bc),
                       parent_id := pid }) ∧
    (pid ++ "_low_battery") ∈ (normalize blacklist raw).low_battery_ids ∧
    (∃ pe, (normalize blacklist raw).entity_data pid = some pe ∧
      pe.get_battery_low = pyOr (some bl) (some bc)) ∧
    (∀ k e, (normalize blacklist raw).entity_data k = some e →
      e.uid = pid ++ "_low_battery" → k = pid ++ "_low_battery") := by
  have hmemLB : "_low_battery" ∈ synthSuffixes := by simp [synthSuffixes]
  have hmemMF : "_malfunction" ∈ synthSuffixes := by simp [synthSuffixes]
  have hmemDB : "_debug" ∈ synthSuffixes := by simp [synthSuffixes]
  obtain ⟨⟨hndS, hndL⟩, hdisjS, hdisjL⟩ := rawIds_facts raw hnd
  -- Step 1: locate the parent entity in the real-device phase.
  have key : ∃ pe, (camStage blacklist raw).1 pid = some pe ∧
      pe.get_name = pname ∧
      pe.get_battery_low = pyOr (some bl) (some bc) ∧
      pid ∈ (sensStage blacklist raw).2 ++ (lockStage blacklist raw).2 ∧
      pid ∈ allRawIds raw := by
    rcases hsrc with ⟨d, hd, hbl, hid, hname, hblow, hbcrit⟩ |
        ⟨d, hd, hid, hname, hblow, hbcrit⟩
    · -- sensor parent
      have hkept : d ∈ keptSensors blacklist raw := by
        rw [keptSensors, List.mem_filter]
        exact ⟨hd, by rw [hbl]; rfl⟩
      have hpidS : pid ∈ raw.sensors.map fun d => d.id_ :=
        List.mem_map.mpr ⟨d, hd, hid⟩
      obtain ⟨hnsys, hnpart, hnlock, hnlight, hngar, hncam⟩ :=
        hdisjS pid hpidS
      have hsens : (sensStage blacklist raw).1 pid =
          some (mkSensorEntity d) := by
        rw [← hid]
        refine addDevices_fst_of_mem _ _ _ _ _ hkept fun d' hd' hk => ?_
        exact List.inj_on_of_nodup_map hndS
          (List.mem_of_mem_filter hd') (List.mem_of_mem_filter hkept) hk
      have hcam : (camStage blacklist raw).1 pid = some (mkSensorEntity d) := by
        rw [camStage]
        rw [addDevices_fst_of_ne _ _ _ _ _ fun d' hd' hk =>
          hncam (List.mem_map.mpr ⟨d', hd', hk⟩)]
        rw [garageStage]
        rw [addDevices_fst_of_ne _ _ _ _ _ fun d' hd' hk =>
          hngar (List.mem_map.mpr ⟨d', hd', hk⟩)]
        rw [lightStage]
        rw [addDevices_fst_of_ne _ _ _ _ _ fun d' hd' hk =>
          hnlight (List.mem_map.mpr ⟨d', hd', hk⟩)]
        rw [lockStage]
        rw [addDevices_fst_of_ne _ _ _ _ _ fun d' hd' hk =>
          hnlock (List.mem_map.mpr ⟨d', hd', hk⟩)]
        exact hsens
      refine ⟨mkSensorEntity d, hcam, ?_, ?_, ?_, ?_⟩
      · rw [← hname]; rfl
      · show pyOr d.battery_low d.battery_critical = _
        rw [hblow, hbcrit]
      · refine List.mem_append_left _ ?_
        rw [sensStage_snd]
        exact List.mem_map.mpr ⟨d, hkept, hid⟩
      · exact sensorIds_sub_allRawIds raw pid hpidS
    · -- lock parent
      have hpidL : pid ∈ raw.locks.map fun d => d.id_ :=
        List.mem_map.mpr ⟨d, hd, hid⟩
      obtain ⟨hnsys, hnpart, hnsens, hnlight, hngar, hncam⟩ :=
        hdisjL pid hpidL
      have hlock : (lockStage blacklist raw).1 pid =
          some (mkLockEntity d) := by
        rw [← hid]
        refine addDevices_fst_of_mem _ _ _ _ _ hd fun d' hd' hk =>
          List.inj_on_of_nodup_map hndL hd' hd hk
      have hcam : (camStage blacklist raw).1 pid = some (mkLockEntity d) := by
        rw [camStage]
        rw [addDevices_fst_of_ne _ _ _ _ _ fun d' hd' hk =>
          hncam (List.mem_map.mpr ⟨d', hd', hk⟩)]
        rw [garageStage]
        rw [addDevices_fst_of_ne _ _ _ _ _ fun d' hd' hk =>
          hngar (List.mem_map.mpr ⟨d', hd', hk⟩)]
        rw [lightStage]
        rw [addDevices_fst_of_ne _ _ _ _ _ fun d' hd' hk =>
          hnlight (List.mem_map.mpr ⟨d', hd', hk⟩)]
        exact hlock
      refine ⟨mkLockEntity d, hcam, ?_, ?_, ?_, ?_⟩
      · rw [← hname]; rfl
      · show pyOr d.battery_low d.battery_critical = _
        rw [hblow, hbcrit]
      · refine List.mem_append_right _ ?_
        rw [lockStage_snd]
        exact hpidL
      · exact lockIds_sub_allRawIds raw pid hpidL
  obtain ⟨pe, hcam, hpename, hpebatt, hpidmem, hpidall⟩ := key
  have hpeuid : pe.uid = pid := keyedUid_camStage blacklist raw pid pe hcam
  -- Parent-id list facts.
  have hparentsSub : ∀ x ∈ (sensStage blacklist raw).2 ++
      (lockStage blacklist raw).2, x ∈ allRawIds raw := by
    intro x hx
    rcases List.mem_append.mp hx with h1 | h2
    · rw [sensStage_snd] at h1
      exact sensorIds_sub_allRawIds raw x
        (keptSensorIds_sub blacklist raw x h1)
    · rw [lockStage_snd] at h2
      exact lockIds_sub_allRawIds raw x h2
  have hndSL : ((sensStage blacklist raw).2 ++
      (lockStage blacklist raw).2).Nodup := by
    rw [sensStage_snd, lockStage_snd, List.nodup_append]
    refine ⟨?_, hndL, ?_⟩
    · exact List.Nodup.sublist
        (List.Sublist.map _ (List.filter_sublist _)) hndS
    · intro x hx1 hx2
      exact (hdisjS x (keptSensorIds_sub blacklist raw x hx1)).2.2.1 hx2
  have hfreeSL : ∀ p ∈ (sensStage blacklist raw).2 ++
      (lockStage blacklist raw).2, ¬ "_low_battery".data <:+ p.data :=
    fun p hp => hfree _ hmemLB p (hparentsSub p hp)
  -- Step 2: the battery loop plants the child.
  obtain ⟨hbatt1, hbatt2⟩ := childFold_spec "_low_battery" mkBatteryChild
    ((sensStage blacklist raw).2 ++ (lockStage blacklist raw).2)
    ((camStage blacklist raw).1, []) pid pe
    (keyedUid_camStage blacklist raw) (fun q u => rfl) hpidmem hndSL
    hfreeSL hcam
  have hchild : mkBatteryChild pe (pid ++ "_low_battery") =
      .battery { unique_id := pid ++ "_low_battery",
                 name := pname ++ ": Battery",
                 state := pyOr (some bl) (some bc),
                 parent_id := pid } := by
    rw [mkBatteryChild, hpename, hpebatt, hpeuid]
  -- Step 3: the remaining loops leave the battery key untouched.
  have hmalf : (malfStage blacklist raw).1 (pid ++ "_low_battery") =
      (battStage blacklist raw).1 (pid ++ "_low_battery") := by
    rw [malfStage]
    exact childFold_fst_of_ne _ _ _ _ _ (keyedUid_battStage blacklist raw)
      (fun q u => rfl) fun p hp =>
        append_ne_append_of_suffix_independent (by decide) (by decide) p pid
  have hdebug : (debugStage blacklist raw).1 (pid ++ "_low_battery") =
      (malfStage blacklist raw).1 (pid ++ "_low_battery") := by
    rw [debugStage]
    exact childFold_fst_of_ne _ _ _ _ _ (keyedUid_malfStage blacklist raw)
      (fun q u => rfl) fun p hp =>
        append_ne_append_of_suffix_independent (by decide) (by decide) p pid
  have hconfig : (configStage blacklist raw).m (pid ++ "_low_battery") =
      (debugStage blacklist raw).1 (pid ++ "_low_battery") := by
    rw [configStage]
    refine configFold_m_of_ne _ _ _ fun cam hcam' o ho => ?_
    exact Ne.symm (ne_append_of_not_suffixed
      ((hcfg cam hcam' o ho).2 _ hmemLB) pid)
  refine ⟨?_, ?_, ?_, ?_⟩
  · show (configStage blacklist raw).m (pid ++ "_low_battery") = _
    rw [hconfig, hdebug, hmalf]
    rw [show (battStage blacklist raw).1 = (childFold "_low_battery"
      mkBatteryChild ((sensStage blacklist raw).2 ++
        (lockStage blacklist raw).2)
      ((camStage blacklist raw).1, [])).1 from rfl]
    rw [hbatt1, hchild]
  · exact hbatt2
  · -- the parent entry survives to the final map
    refine ⟨pe, ?_, hpebatt⟩
    have e4 : (configStage blacklist raw).m pid =
        (debugStage blacklist raw).1 pid := by
      rw [configStage]
      exact configFold_m_of_ne _ _ _ fun cam hcam' o ho hk =>
        (hcfg cam hcam' o ho).1 (hk ▸ hpidall)
    have e3 : (debugStage blacklist raw).1 pid =
        (malfStage blacklist raw).1 pid := by
      rw [debugStage]
      exact childFold_fst_of_ne _ _ _ _ _ (keyedUid_malfStage blacklist raw)
        (fun q u => rfl) fun p hp =>
          ne_append_of_not_suffixed (hfree _ hmemDB pid hpidall) p
    have e2 : (malfStage blacklist raw).1 pid =
        (battStage blacklist raw).1 pid := by
      rw [malfStage]
      exact childFold_fst_of_ne _ _ _ _ _ (keyedUid_battStage blacklist raw)
        (fun q u => rfl) fun p hp =>
          ne_append_of_not_suffixed (hfree _ hmemMF pid hpidall) p
    have e1 : (battStage blacklist raw).1 pid =
        (camStage blacklist raw).1 pid := by
      rw [battStage]
      exact childFold_fst_of_ne _ _ _ _ _ (keyedUid_camStage blacklist raw)
        (fun q u => rfl) fun p hp =>
          ne_append_of_not_suffixed (hfree _ hmemLB pid hpidall) p
    show (configStage blacklist raw).m pid = some pe
    rw [e4, e3, e2, e1]
    exact hcam
  · intro k e he heuid
    exact (keyedUid_normalize blacklist raw k e he).symm.trans heuid

theorem synthSuffixes_independent :
    ∀ s ∈ synthSuffixes, ∀ t ∈ synthSuffixes, s ≠ t →
      ∀ p q : String, p ++ s ≠ q ++ t := by
  intro s hs t ht hne p q
  simp only [synthSuffixes, List.mem_cons, List.mem_singleton,
    List.not_mem_nil, or_false] at hs ht
  rcases hs with rfl | rfl | rfl <;> rcases ht with rfl | rfl | rfl <;>
    first
      | exact absurd rfl hne
      | exact append_ne_append_of_suffix_independent (by decide) (by decide)
          p q

/-- C4: a sensor whose subtype is blacklisted appears in no entry of the
output entity map and in no per-kind index set, and no virtual battery /
malfunction / debug child is generated for it (regardless of its
battery / malfunction fields). -/
theorem blacklist_exclusion
    (blacklist : List (Option String)) (raw : RawData) (d : RawSensor)
    (hnd : (allRawIds raw).Nodup) (hd : d ∈ raw.sensors)
    (hbl : blacklist.contains d.device_subtype = true)
    (hfree : ∀ sfx ∈ synthSuffixes, ∀ r ∈ allRawIds raw,
      ¬ sfx.data <:+ r.data)
    (hcfg : ∀ cam ∈ raw.cameras, ∀ o ∈ cam.settings,
      configOptionUid cam o ∉ allRawIds raw ∧
        ∀ sfx ∈ synthSuffixes, ¬ sfx.data <:+ (configOptionUid cam o).data) :
    (normalize blacklist raw).entity_data d.id_ = none ∧
    (∀ sfx ∈ synthSuffixes,
      (normalize blacklist raw).entity_data (d.id_ ++ sfx) = none) ∧
    (d.id_ ∉ (normalize blacklist raw).system_ids ∧
      d.id_ ∉ (normalize blacklist raw).partition_ids ∧
      d.id_ ∉ (normalize blacklist raw).sensor_ids ∧
      d.id_ ∉ (normalize blacklist raw).lock_ids ∧
      d.id_ ∉ (normalize blacklist raw).light_ids ∧
      d.id_ ∉ (normalize blacklist raw).garage_door_ids ∧
      d.id_ ∉ (normalize blacklist raw).camera_ids ∧
      d.id_ ∉ (normalize blacklist raw).low_battery_ids ∧
      d.id_ ∉ (normalize blacklist raw).malfunction_ids ∧
      d.id_ ∉ (normalize blacklist raw).debug_ids ∧
      d.id_ ∉ (normalize blacklist raw).config_switch_ids ∧
      d.id_ ∉ (normalize blacklist raw).config_select_ids ∧
      d.id_ ∉ (normalize blacklist raw).config_light_ids ∧
      d.id_ ∉ (normalize blacklist raw).config_number_ids) ∧
    (∀ sfx ∈ synthSuffixes,
      (d.id_ ++ sfx) ∉ (normalize blacklist raw).low_battery_ids ∧
      (d.id_ ++ sfx) ∉ (normalize blacklist raw).malfunction_ids ∧
      (d.id_ ++ sfx) ∉ (normalize blacklist raw).debug_ids) := by
  have hmemLB : "_low_battery" ∈ synthSuffixes := by simp [synthSuffixes]
  have hmemMF : "_malfunction" ∈ synthSuffixes := by simp [synthSuffixes]
  have hmemDB : "_debug" ∈ synthSuffixes := by simp [synthSuffixes]
  obtain ⟨⟨hndS, hndL⟩, hdisjS, hdisjL⟩ := rawIds_facts raw hnd
  have hidS : d.id_ ∈ raw.sensors.map fun d => d.id_ :=
    List.mem_map.mpr ⟨d, hd, rfl⟩
  have hidall : d.id_ ∈ allRawIds raw := sensorIds_sub_allRawIds raw _ hidS
  obtain ⟨hnsys, hnpart, hnlock, hnlight, hngar, hncam⟩ := hdisjS d.id_ hidS
  have hnkept : d.id_ ∉ (sensStage blacklist raw).2 := by
    rw [sensStage_snd]
    intro hmem
    rcases List.mem_map.mp hmem with ⟨d', hd', hdx⟩
    have : d' = d := List.inj_on_of_nodup_map hndS
      (List.mem_of_mem_filter hd') hd hdx
    subst this
    have := (List.mem_filter.mp hd').2
    rw [hbl] at this
    cases this
  have hnkeptm : d.id_ ∉ (keptSensors blacklist raw).map fun x => x.id_ := by
    rw [← sensStage_snd blacklist raw]
    exact hnkept
  -- `d.id_` is in none of the parent-id lists fed to the child loops.
  have hnbattp : d.id_ ∉ (sensStage blacklist raw).2 ++
      (lockStage blacklist raw).2 := by
    intro hmem
    rcases List.mem_append.mp hmem with h1 | h2
    · exact hnkept h1
    · rw [lockStage_snd] at h2
      exact hnlock h2
  have hnmalfp : d.id_ ∉ (sensStage blacklist raw).2 ++
      (lockStage blacklist raw).2 ++ (partStage raw).2 ++
      (garageStage blacklist raw).2 ++ (lightStage blacklist raw).2 := by
    intro hmem
    simp only [List.mem_append] at hmem
    rw [lockStage_snd, partStage_snd, garageStage_snd, lightStage_snd]
      at hmem
    rcases hmem with (((h1 | h2) | h3) | h4) | h5
    · exact hnkept h1
    · exact hnlock h2
    · exact hnpart h3
    · exact hngar h4
    · exact hnlight h5
  have hndebugp : d.id_ ∉ (sensStage blacklist raw).2 ++
      (lockStage blacklist raw).2 ++ (partStage raw).2 ++
      (lightStage blacklist raw).2 ++ (garageStage blacklist raw).2 := by
    intro hmem
    simp only [List.mem_append] at hmem
    rw [lockStage_snd, partStage_snd, garageStage_snd, lightStage_snd]
      at hmem
    rcases hmem with (((h1 | h2) | h3) | h4) | h5
    · exact hnkept h1
    · exact hnlock h2
    · exact hnpart h3
    · exact hnlight h4
    · exact hngar h5
  -- The real-device loops never write a key satisfying the 7 conditions.
  have hreal : ∀ k : String,
      (∀ x ∈ raw.systems, x.id_ ≠ k) →
      (∀ x ∈ raw.partitions, x.id_ ≠ k) →
      (∀ x ∈ keptSensors blacklist raw, x.id_ ≠ k) →
      (∀ x ∈ raw.locks, x.id_ ≠ k) →
      (∀ x ∈ raw.lights, x.id_ ≠ k) →
      (∀ x ∈ raw.garage_doors, x.id_ ≠ k) →
      (∀ x ∈ raw.cameras, x.id_ ≠ k) →
      (camStage blacklist raw).1 k = none := by
    intro k h1 h2 h3 h4 h5 h6 h7
    rw [camStage, addDevices_fst_of_ne _ _ _ _ _ h7,
      garageStage, addDevices_fst_of_ne _ _ _ _ _ h6,
      lightStage, addDevices_fst_of_ne _ _ _ _ _ h5,
      lockStage, addDevices_fst_of_ne _ _ _ _ _ h4,
      sensStage, addDevices_fst_of_ne _ _ _ _ _ h3,
      partStage, addDevices_fst_of_ne _ _ _ _ _ h2,
      sysStage, addDevices_fst_of_ne _ _ _ _ _ h1]
    rfl
  -- A key no raw id equals is absent from the real-device phase.
  have hreal' : ∀ k : String, (∀ r ∈ allRawIds raw, r ≠ k) →
      (camStage blacklist raw).1 k = none := by
    intro k hk
    have glue : ∀ {α : Type} (f : α → String) (l : List α),
        (∀ x ∈ l.map f, x ∈ allRawIds raw) → ∀ x ∈ l, f x ≠ k :=
      fun f l hsub x hx => hk _ (hsub _ (List.mem_map.mpr ⟨x, hx, rfl⟩))
    refine hreal k
      (glue _ _ fun x hx => by simp only [allRawIds, List.mem_append]; tauto)
      (glue _ _ fun x hx => by simp only [allRawIds, List.mem_append]; tauto)
      (glue _ _ fun x hx => sensorIds_sub_allRawIds raw _
        (keptSensorIds_sub blacklist raw _ hx))
      (glue _ _ fun x hx => by simp only [allRawIds, List.mem_append]; tauto)
      (glue _ _ fun x hx => by simp only [allRawIds, List.mem_append]; tauto)
      (glue _ _ fun x hx => by simp only [allRawIds, List.mem_append]; tauto)
      (glue _ _ fun x hx => by simp only [allRawIds, List.mem_append]; tauto)
  -- Lifting a missing key through the three child loops and the config loop.
  have hlift : ∀ k : String,
      (∀ p ∈ (sensStage blacklist raw).2 ++ (lockStage blacklist raw).2,
        p ++ "_low_battery" ≠ k) →
      (∀ p ∈ (sensStage blacklist raw).2 ++ (lockStage blacklist raw).2 ++
          (partStage raw).2 ++ (garageStage blacklist raw).2 ++
          (lightStage blacklist raw).2, p ++ "_malfunction" ≠ k) →
      (∀ p ∈ (sensStage blacklist raw).2 ++ (lockStage blacklist raw).2 ++
          (partStage raw).2 ++ (lightStage blacklist raw).2 ++
          (garageStage blacklist raw).2, p ++ "_debug" ≠ k) →
      (∀ cam ∈ raw.cameras, ∀ o ∈ cam.settings,
        configOptionUid cam o ≠ k) →
      (normalize blacklist raw).entity_data k =
        (camStage blacklist raw).1 k := by
    intro k h1 h2 h3 h4
    have e4 : (configStage blacklist raw).m k =
        (debugStage blacklist raw).1 k := by
      rw [configStage]
      exact configFold_m_of_ne _ _ _ h4
    have e3 : (debugStage blacklist raw).1 k =
        (malfStage blacklist raw).1 k := by
      rw [debugStage]
      exact childFold_fst_of_ne _ _ _ _ _
        (keyedUid_malfStage blacklist raw) (fun q u => rfl) h3
    have e2 : (malfStage blacklist raw).1 k =
        (battStage blacklist raw).1 k := by
      rw [malfStage]
      exact childFold_fst_of_ne _ _ _ _ _
        (keyedUid_battStage blacklist raw) (fun q u => rfl) h2
    have e1 : (battStage blacklist raw).1 k =
        (camStage blacklist raw).1 k := by
      rw [battStage]
      exact childFold_fst_of_ne _ _ _ _ _
        (keyedUid_camStage blacklist raw) (fun q u => rfl) h1
    show (configStage blacklist raw).m k = _
    rw [e4, e3, e2, e1]
  have hsfx_mem : ∀ sfx ∈ synthSuffixes, sfx = "_low_battery" ∨
      sfx = "_malfunction" ∨ sfx = "_debug" := by
    intro sfx hs
    simpa [synthSuffixes] using hs
  refine ⟨?_, ?_, ?_, ?_⟩
  · -- `d.id_` itself is not a key of the final map
    rw [hlift d.id_
      (fun p hp => ne_append_of_not_suffixed (hfree _ hmemLB _ hidall) p)
      (fun p hp => ne_append_of_not_suffixed (hfree _ hmemMF _ hidall) p)
      (fun p hp => ne_append_of_not_suffixed (hfree _ hmemDB _ hidall) p)
      (fun cam hc o ho hk => (hcfg cam hc o ho).1 (hk ▸ hidall))]
    refine hreal d.id_
      (fun x hx hk => hnsys (List.mem_map.mpr ⟨x, hx, hk⟩))
      (fun x hx hk => hnpart (List.mem_map.mpr ⟨x, hx, hk⟩))
      (fun x hx hk => hnkeptm (List.mem_map.mpr ⟨x, hx, hk⟩))
      (fun x hx hk => hnlock (List.mem_map.mpr ⟨x, hx, hk⟩))
      (fun x hx hk => hnlight (List.mem_map.mpr ⟨x, hx, hk⟩))
      (fun x hx hk => hngar (List.mem_map.mpr ⟨x, hx, hk⟩))
      (fun x hx hk => hncam (List.mem_map.mpr ⟨x, hx, hk⟩))
  · -- no virtual child keys for `d`
    intro sfx hs
    have hne_real : ∀ r ∈ allRawIds raw, r ≠ d.id_ ++ sfx := by
      intro r hr hrk
      exact hfree _ hs r hr (suffixed_of_eq_append hrk)
    have hcfg' : ∀ cam ∈ raw.cameras, ∀ o ∈ cam.settings,
        configOptionUid cam o ≠ d.id_ ++ sfx := by
      intro cam hc o ho
      exact Ne.symm (ne_append_of_not_suffixed ((hcfg cam hc o ho).2 _ hs)
        d.id_)
    have hbattk : ∀ p ∈ (sensStage blacklist raw).2 ++
        (lockStage blacklist raw).2, p ++ "_low_battery" ≠ d.id_ ++ sfx := by
      intro p hp he
      rcases hsfx_mem sfx hs with rfl | rfl | rfl
      · exact hnbattp ((append_left_eq_of_append_eq he) ▸ hp)
      · exact synthSuffixes_independent _ hmemLB _ hmemMF (by decide) p
          d.id_ he
      · exact synthSuffixes_independent _ hmemLB _ hmemDB (by decide) p
          d.id_ he
    have hmalfk : ∀ p ∈ (sensStage blacklist raw).2 ++
        (lockStage blacklist raw).2 ++ (partStage raw).2 ++
        (garageStage blacklist raw).2 ++ (lightStage blacklist raw).2,
        p ++ "_malfunction" ≠ d.id_ ++ sfx := by
      intro p hp he
      rcases hsfx_mem sfx hs with rfl | rfl | rfl
      · exact synthSuffixes_independent _ hmemMF _ hmemLB (by decide) p
          d.id_ he
      · exact hnmalfp ((append_left_eq_of_append_eq he) ▸ hp)
      · exact synthSuffixes_independent _ hmemMF _ hmemDB (by decide) p
          d.id_ he
    have hdebugk : ∀ p ∈ (sensStage blacklist raw).2 ++
        (lockStage blacklist raw).2 ++ (partStage raw).2 ++
        (lightStage blacklist raw).2 ++ (garageStage blacklist raw).2,
        p ++ "_debug" ≠ d.id_ ++ sfx := by
      intro p hp he
      rcases hsfx_mem sfx hs with rfl | rfl | rfl
      · exact synthSuffixes_independent _ hmemDB _ hmemLB (by decide) p
          d.id_ he
      · exact synthSuffixes_independent _ hmemDB _ hmemMF (by decide) p
          d.id_ he
      · exact hndebugp ((append_left_eq_of_append_eq he) ▸ hp)
    rw [hlift _ hbattk hmalfk hdebugk hcfg']
    exact hreal' _ hne_real
  · -- `d.id_` is in no per-kind index set
    refine ⟨?_, ?_, hnkept, ?_, ?_, ?_, ?_, ?_, ?_, ?_, ?_, ?_, ?_, ?_⟩
    · show d.id_ ∉ (sysStage raw).2
      rw [sysStage_snd]
      exact hnsys
    · show d.id_ ∉ (partStage raw).2
      rw [partStage_snd]
      exact hnpart
    · show d.id_ ∉ (lockStage blacklist raw).2
      rw [lockStage_snd]
      exact hnlock
    · show d.id_ ∉ (lightStage blacklist raw).2
      rw [lightStage_snd]
      exact hnlight
    · show d.id_ ∉ (garageStage blacklist raw).2
      rw [garageStage_snd]
      exact hngar
    · show d.id_ ∉ (camStage blacklist raw).2
      rw [camStage_snd]
      exact hncam
    · show d.id_ ∉ (battStage blacklist raw).2
      intro hmem
      rw [battStage] at hmem
      rcases childFold_snd_origin "_low_battery" mkBatteryChild _
          ((camStage blacklist raw).1, []) _ (keyedUid_camStage blacklist raw) (fun q u => rfl) hmem with
        h0 | ⟨p, hp, he⟩
      · cases h0
      · exact hfree _ hmemLB _ hidall (suffixed_of_eq_append he)
    · show d.id_ ∉ (malfStage blacklist raw).2
      intro hmem
      rw [malfStage] at hmem
      rcases childFold_snd_origin "_malfunction" mkMalfunctionChild _
          ((battStage blacklist raw).1, []) _ (keyedUid_battStage blacklist raw) (fun q u => rfl) hmem with
        h0 | ⟨p, hp, he⟩
      · cases h0
      · exact hfree _ hmemMF _ hidall (suffixed_of_eq_append he)
    · show d.id_ ∉ (debugStage blacklist raw).2
      intro hmem
      rw [debugStage] at hmem
      rcases childFold_snd_origin "_debug" mkDebugChild _
          ((malfStage blacklist raw).1, []) _ (keyedUid_malfStage blacklist raw) (fun q u => rfl) hmem with
        h0 | ⟨p, hp, he⟩
      · cases h0
      · exact hfree _ hmemDB _ hidall (suffixed_of_eq_append he)
    · show d.id_ ∉ (configStage blacklist raw).switchIds
      intro hmem
      rcases (configFold_ids_origin _ _ _).1 hmem with h0 | ⟨c, hc, o, ho, he⟩
      · cases h0
      · exact (hcfg c hc o ho).1 (he ▸ hidall)
    · show d.id_ ∉ (configStage blacklist raw).selectIds
      intro hmem
      rcases (configFold_ids_origin _ _ _).2.1 hmem with
        h0 | ⟨c, hc, o, ho, he⟩
      · cases h0
      · exact (hcfg c hc o ho).1 (he ▸ hidall)
    · show d.id_ ∉ (configStage blacklist raw).lightIds
      intro hmem
      rcases (configFold_ids_origin _ _ _).2.2.1 hmem with
        h0 | ⟨c, hc, o, ho, he⟩
      · cases h0
      · exact (hcfg c hc o ho).1 (he ▸ hidall)
    · show d.id_ ∉ (configStage blacklist raw).numberIds
      intro hmem
      rcases (configFold_ids_origin _ _ _).2.2.2 hmem with
        h0 | ⟨c, hc, o, ho, he⟩
      · cases h0
      · exact (hcfg c hc o ho).1 (he ▸ hidall)
  · -- no virtual child of `d` in the virtual id sets
    intro sfx hs
    refine ⟨?_, ?_, ?_⟩
    · show d.id_ ++ sfx ∉ (battStage blacklist raw).2
      intro hmem
      rw [battStage] at hmem
      rcases childFold_snd_origin "_low_battery" mkBatteryChild _
          ((camStage blacklist raw).1, []) _ (keyedUid_camStage blacklist raw) (fun q u => rfl) hmem with
        h0 | ⟨p, hp, he⟩
      · cases h0
      · rcases hsfx_mem sfx hs with rfl | rfl | rfl
        · exact hnbattp ((append_left_eq_of_append_eq he).symm ▸ hp)
        · exact synthSuffixes_independent _ hmemMF _ hmemLB (by decide)
            d.id_ p he
        · exact synthSuffixes_independent _ hmemDB _ hmemLB (by decide)
            d.id_ p he
    · show d.id_ ++ sfx ∉ (malfStage blacklist raw).2
      intro hmem
      rw [malfStage] at hmem
      rcases childFold_snd_origin "_malfunction" mkMalfunctionChild _
          ((battStage blacklist raw).1, []) _ (keyedUid_battStage blacklist raw) (fun q u => rfl) hmem with
        h0 | ⟨p, hp, he⟩
      · cases h0
      · rcases hsfx_mem sfx hs with rfl | rfl | rfl
        · exact synthSuffixes_independent _ hmemLB _ hmemMF (by decide)
            d.id_ p he
        · exact hnmalfp ((append_left_eq_of_append_eq he).symm ▸ hp)
        · exact synthSuffixes_independent _ hmemDB _ hmemMF (by decide)
            d.id_ p he
    · show d.id_ ++ sfx ∉ (debugStage blacklist raw).2
      intro hmem
      rw [debugStage] at hmem
      rcases childFold_snd_origin "_debug" mkDebugChild _
          ((malfStage blacklist raw).1, []) _ (keyedUid_malfStage blacklist raw) (fun q u => rfl) hmem with
        h0 | ⟨p, hp, he⟩
      · cases h0
      · rcases hsfx_mem sfx hs with rfl | rfl | rfl
        · exact synthSuffixes_independent _ hmemLB _ hmemDB (by decide)
            d.id_ p he
        · exact synthSuffixes_independent _ hmemMF _ hmemDB (by decide)
            d.id_ p he
        · exact hndebugp ((append_left_eq_of_append_eq he).symm ▸ hp)

/-- A small concrete client payload: one system, one partition, one kept
contact sensor with both battery flags set, one blacklisted mobile-phone
sensor, one lock, and no cameras. -/
def exampleRaw : RawData :=
  { systems := [{ id_ := "sys1", name := "Home", malfunction := some false,
                  unit_id := "u1", mac_address := "aa" }]
    partitions := [{ id_ := "p1", name := "Partition", state := some .DISARMED,
                     malfunction := some false, system_id := some "sys1",
                     mac_address := "bb", raw_state_text := "Disarmed",
                     desired_state := some .DISARMED,
                     uncleared_issues := some false,
                     read_only := some false }]
    sensors := [{ id_ := "s1", name := "Front Door", state := some .CLOSED,
                  malfunction := some false, partition_id := some "p1",
                  battery_low := some false, battery_critical := some false,
                  mac_address := "cc", raw_state_text := "Closed",
                  device_subtype := some "contact" },
                { id_ := "blk1", name := "Phone", state := none,
                  malfunction := some true, partition_id := some "p1",
                  battery_low := some true, battery_critical := some true,
                  mac_address := "dd", raw_state_text := "",
                  device_subtype := some "mobile_phone" }]
    locks := [{ id_ := "lk1", name := "Door Lock", state := some .LOCKED,
                malfunction := some false, partition_id := some "p1",
                battery_low := some false, battery_critical := some true,
                mac_address := "ee", raw_state_text := "Locked",
                desired_state := some .LOCKED, read_only := some false }]
    lights := []
    garage_doors := []
    cameras := [] }

/-- The blacklist used by the concrete examples. -/
def exampleBlacklist : List (Option String) := [some "mobile_phone"]

/-- Witness for `virtual_battery_invariant` at `exampleRaw`: the lock `lk1`
(battery_low `False`, battery_critical `True`) yields a virtual battery
entity at `lk1_low_battery` with state `True`. -/
theorem virtual_battery_invariant_witness :
    ((allRawIds exampleRaw).Nodup ∧
      (∀ sfx ∈ synthSuffixes, ∀ r ∈ allRawIds exampleRaw,
        ¬ sfx.data <:+ r.data) ∧
      (∃ d ∈ exampleRaw.locks, d.id_ = "lk1" ∧ d.name = "Door Lock" ∧
        d.battery_low = some false ∧ d.battery_critical = some true)) ∧
    ((normalize exampleBlacklist exampleRaw).entity_data
        ("lk1" ++ "_low_battery") =
      some (.battery { unique_id := "lk1" ++ "_low_battery",
                       name := "Door Lock" ++ ": Battery",
                       state := pyOr (some false) (some true),
                       parent_id := "lk1" }) ∧
    ("lk1" ++ "_low_battery") ∈
      (normalize exampleBlacklist exampleRaw).low_battery_ids ∧
    (∃ pe, (normalize exampleBlacklist exampleRaw).entity_data "lk1" =
      some pe ∧ pe.get_battery_low = pyOr (some false) (some true)) ∧
    (∀ k e, (normalize exampleBlacklist exampleRaw).entity_data k = some e →
      e.uid = "lk1" ++ "_low_battery" → k = "lk1" ++ "_low_battery")) := by
  refine ⟨⟨by decide, by decide, by decide⟩, ?_⟩
  exact virtual_battery_invariant exampleBlacklist exampleRaw "lk1"
    "Door Lock" false true (by decide) (by decide)
    (by intro cam hc; cases hc) (Or.inr (by decide))

/-- The blacklisted mobile-phone sensor of `exampleRaw`. -/
def blkSensor : RawSensor :=
  { id_ := "blk1", name := "Phone", state := none,
    malfunction := some true, partition_id := some "p1",
    battery_low := some true, battery_critical := some true,
    mac_address := "dd", raw_state_text := "",
    device_subtype := some "mobile_phone" }

/-- Witness for `blacklist_exclusion` at `exampleRaw`: the mobile-phone
sensor `blk1` is blacklisted and absent from the map and every id set. -/
theorem blacklist_exclusion_witness :
    ((allRawIds exampleRaw).Nodup ∧
      (∃ d ∈ exampleRaw.sensors, d.id_ = "blk1" ∧
        exampleBlacklist.contains d.device_subtype = true) ∧
      (∀ sfx ∈ synthSuffixes, ∀ r ∈ allRawIds exampleRaw,
        ¬ sfx.data <:+ r.data)) ∧
    ((normalize exampleBlacklist exampleRaw).entity_data "blk1" = none ∧
      "blk1" ∉ (normalize exampleBlacklist exampleRaw).sensor_ids ∧
      ("blk1" ++ "_low_battery") ∉
        (normalize exampleBlacklist exampleRaw).low_battery_ids ∧
      ("blk1" ++ "_malfunction") ∉
        (normalize exampleBlacklist exampleRaw).malfunction_ids) := by
  have hd : blkSensor ∈ exampleRaw.sensors := by decide
  have h := blacklist_exclusion exampleBlacklist exampleRaw blkSensor
    (by decide) hd (by decide) (by decide) (by intro cam hc; cases hc)
  refine ⟨⟨by decide, ⟨_, hd, by decide, by decide⟩, by decide⟩,
    h.1, h.2.2.1.2.2.1, ?_, ?_⟩
  · exact (h.2.2.2 "_low_battery" (by simp [synthSuffixes])).1
  · exact (h.2.2.2 "_malfunction" (by simp [synthSuffixes])).2.1

/-! ## Update-failure classification
(`controller.py` / `alarmhub.py::async_update`, lines 225-268 / 201-246)

The `try`/`except` around `self._alarm.async_update()` classifies client
failures before anything is built: `UnexpectedDataStructure` and
`ConnectionError` are re-raised as `UpdateFailed`; `TypeError` (the
2FA-import case), `PermissionError` and `AuthenticationFailed` as
`ConfigEntryAuthFailed`; `asyncio.TimeoutError` and `aiohttp.ClientError`
propagate unchanged for the host coordinator to treat as transient. -/

/-- Outcome of the underlying `pyalarmdotcomajax` update call. -/
inductive FetchOutcome where
  | success (raw : RawData)
  | unexpectedDataStructure
  | connectionError
  | typeError
  | permissionError
  | authenticationFailed
  | timeoutError
  | clientError
deriving DecidableEq, Repr

/-- What `async_update` raises on failure. -/
inductive UpdateRaise where
  | updateFailed
  | configEntryAuthFailed
  | timeoutError
  | clientError
deriving DecidableEq, Repr

/-- The `IntController.async_update`: classify a failed fetch, or run the
normalization pass on success. -/
def async_update (blacklist : List (Option String)) (outcome : FetchOutcome) :
    Except UpdateRaise Snapshot :=
  match outcome with
  | .success raw => .ok (normalize blacklist raw)
  | .unexpectedDataStructure => .error .updateFailed
  | .connectionError => .error .updateFailed
  | .typeError => .error .configEntryAuthFailed
  | .permissionError => .error .configEntryAuthFailed
  | .authenticationFailed => .error .configEntryAuthFailed
  | .timeoutError => .error .timeoutError
  | .clientError => .error .clientError

/-- Modelled from the spec: the host `DataUpdateCoordinator` (not part of
these sources) publishes the update method's return value as the new
snapshot generation and, when the update method raises, keeps the previous
one. -/
def coordinator_publish (prev : Option Snapshot)
    (r : Except UpdateRaise Snapshot) : Option Snapshot :=
  match r with
  | .ok s => some s
  | .error _ => prev

/-- C7: authentication failures, permission errors and the 2FA `TypeError`
raise the reauthentication error; malformed payloads and connection errors
raise the update-failed error; timeouts and client errors propagate
unchanged as transient; and every failure returns no device structure, so
the previously published snapshot is retained. -/
theorem update_failure_classification (blacklist : List (Option String))
    (prev : Option Snapshot) :
    (async_update blacklist .authenticationFailed =
        .error .configEntryAuthFailed ∧
      async_update blacklist .permissionError =
        .error .configEntryAuthFailed ∧
      async_update blacklist .typeError = .error .configEntryAuthFailed) ∧
    (async_update blacklist .unexpectedDataStructure =
        .error .updateFailed ∧
      async_update blacklist .connectionError = .error .updateFailed) ∧
    (async_update blacklist .timeoutError = .error .timeoutError ∧
      async_update blacklist .clientError = .error .clientError) ∧
    (∀ o : FetchOutcome, ∀ e : UpdateRaise,
      async_update blacklist o = .error e →
        coordinator_publish prev (async_update blacklist o) = prev) := by
  refine ⟨⟨rfl, rfl, rfl⟩, ⟨rfl, rfl⟩, ⟨rfl, rfl⟩, ?_⟩
  intro o e he
  rw [he]
  rfl

/-- Witness for `update_failure_classification` at a concrete previous
snapshot (`none`) and a concrete failing outcome (`connectionError`). -/
theorem update_failure_classification_witness :
    async_update [] .connectionError = .error .updateFailed ∧
      coordinator_publish none (async_update [] .connectionError) = none := by
  have h := update_failure_classification [] none
  exact ⟨h.2.1.2, h.2.2.2 .connectionError .updateFailed h.2.1.2⟩

end Alarmdotcom
